import Mathlib

/-!
Verification of the freight-logistics backend (trip/shipment lifecycle and
billing reconciliation engine).

This file gives a shallow embedding of the route handlers in
`backend/routes/trip_routes.py` and `export/src/backend/server.py`:
the document store becomes a record of lists, Mongo `find_one` becomes
`List.find?` (first match), `update_one` becomes `updateFirst`,
`update_many` becomes `List.map` guarded by the filter, `delete_one`
becomes `deleteFirst`, `delete_many` becomes `List.filter` with the
negated filter, and `count_documents` becomes `List.countP`.
Python floats are embedded as rationals, date/timestamp strings as natural
numbers ordered like the ISO strings they stand for, and uuid identifiers
as natural numbers.  Randomness (the TEMP barcode digits) is passed in as
an explicit stream argument.
-/

namespace Servex

/-- HTTP-style error raised by a handler: status code plus detail string,
mirroring fastapi `HTTPException(status_code=..., detail=...)`. -/
structure ApiErr where
  status : Nat
  detail : String
deriving DecidableEq

/-- Trip status enum (`TripStatus` in server.py). -/
inductive TripStatus
  | planning | loading | in_transit | delivered | closed
deriving DecidableEq

/-- Shipment status enum (`ShipmentStatus` in server.py). -/
inductive ShipmentStatus
  | warehouse | staged | loaded | in_transit | delivered
deriving DecidableEq

/-- Invoice status enum (`InvoiceStatus` in server.py). -/
inductive InvoiceStatus
  | draft | sent | paid | overdue
deriving DecidableEq

/-- Trip document (`Trip` model in server.py; `actual_departure` and
`actual_arrival` are extra document fields written by
`trip_routes.update_trip`). -/
structure Trip where
  id : Nat
  tenant_id : Nat
  trip_number : String
  route : List String
  departure_date : String
  vehicle_id : Option Nat
  driver_id : Option Nat
  notes : Option String
  status : TripStatus
  locked_at : Option Nat
  actual_departure : Option Nat
  actual_arrival : Option Nat
  created_by : Nat
  created_at : Nat
deriving DecidableEq

/-- Shipment (parcel) document. -/
structure Shipment where
  id : Nat
  tenant_id : Nat
  client_id : Option Nat
  trip_id : Option Nat
  status : ShipmentStatus
  description : String
  destination : String
  total_pieces : Nat
  total_weight : ℚ
  total_cbm : Option ℚ
  created_by : Nat
  created_at : Nat
deriving DecidableEq

/-- Physical piece of a shipment, carrying the derived barcode. -/
structure Piece where
  id : Nat
  shipment_id : Nat
  piece_number : Nat
  weight : ℚ
  barcode : String
deriving DecidableEq

/-- Trip expense document. -/
structure TripExpense where
  id : Nat
  trip_id : Nat
  category : String
  amount : ℚ
  currency : String
  expense_date : Nat
  description : Option String
  receipt_url : Option String
  created_by : Nat
  created_at : Nat
deriving DecidableEq

/-- Invoice document.  `vat` is written by `generate_trip_invoices`;
`adjustments` is written by the invoice CRUD endpoints (documents created
by `generate_trip_invoices` have no adjustments key, embedded as `0`).
`issue_year` stands for the year component of the stored issue/creation
date. -/
structure Invoice where
  id : Nat
  tenant_id : Nat
  client_id : Nat
  trip_id : Option Nat
  invoice_number : String
  shipment_ids : List Nat
  subtotal : ℚ
  adjustments : ℚ
  vat : ℚ
  total : ℚ
  currency : String
  status : InvoiceStatus
  issue_year : Nat
  due_date : Nat
  sent_at : Option Nat
  sent_by : Option Nat
  paid_at : Option Nat
  created_by : Nat
  created_at : Nat
deriving DecidableEq

/-- Invoice line item document. -/
structure LineItem where
  id : Nat
  invoice_id : Nat
  shipment_id : Option Nat
  description : String
  quantity : Nat
  weight : Option ℚ
  rate : ℚ
  amount : ℚ
deriving DecidableEq

/-- Payment ledger entry. -/
structure Payment where
  id : Nat
  tenant_id : Nat
  client_id : Nat
  invoice_id : Option Nat
  amount : ℚ
  payment_date : Nat
  created_by : Nat
deriving DecidableEq

/-- Client document (only the fields the verified operations read). -/
structure Client where
  id : Nat
  tenant_id : Nat
  name : String
  payment_terms_days : Nat
deriving DecidableEq

/-- Client rate document.  `generate_trip_invoices` reads the key
`rate_per_kg` with default 50; the key may be absent on stored documents,
hence `Option`. -/
structure ClientRate where
  id : Nat
  client_id : Nat
  rate_per_kg : Option ℚ
deriving DecidableEq

/-- Acting user as produced by `get_current_user` (id and role). -/
structure User where
  id : Nat
  role : String
deriving DecidableEq

/-- The document store: one list per collection. -/
structure DB where
  clients : List Client
  client_rates : List ClientRate
  trips : List Trip
  shipments : List Shipment
  pieces : List Piece
  trip_expenses : List TripExpense
  invoices : List Invoice
  line_items : List LineItem
  payments : List Payment
deriving DecidableEq

/-- Mongo `update_one` semantics: apply `f` to the first element
satisfying `p`, leave the rest unchanged. -/
def updateFirst (p : α → Bool) (f : α → α) : List α → List α
  | [] => []
  | x :: xs => if p x then f x :: xs else x :: updateFirst p f xs

/-- Mongo `delete_one` semantics: remove the first element satisfying `p`. -/
def deleteFirst (p : α → Bool) : List α → List α
  | [] => []
  | x :: xs => if p x then xs else x :: deleteFirst p xs

/-- Zero-pad the decimal representation of `n` to width `w`
(Python `str(n).zfill(w)` and the `{n:0wd}` format). -/
def padNum (w n : Nat) : String :=
  let s := toString n
  String.mk (List.replicate (w - s.length) '0') ++ s

/-- Decimal digit as a character. -/
def digitChar (d : Fin 10) : Char := Char.ofNat (48 + d.val)

/-- Uppercase hexadecimal digit as a character
(`uuid.uuid4().hex[:8].upper()` output alphabet). -/
def hexCharUpper (d : Fin 16) : Char :=
  if d.val < 10 then Char.ofNat (48 + d.val) else Char.ofNat (55 + d.val)

/-- `generate_barcode` (server.py lines 498-504): with a trip number the
barcode is `{trip_number}-{seq:03d}-{piece:02d}`; without one it is
`TEMP-` followed by 6 random decimal digits, the randomness passed in as
`rand`. -/
def generate_barcode (trip_number : Option String) (shipment_seq piece_number : Nat)
    (rand : Fin 6 → Fin 10) : String :=
  match trip_number with
  | some tn => tn ++ "-" ++ padNum 3 shipment_seq ++ "-" ++ padNum 2 piece_number
  | none => "TEMP-" ++ String.mk ((List.finRange 6).map fun i => digitChar (rand i))

/-- The TEMP form asserted by the spec: `TEMP-` followed by exactly 6
decimal digits. -/
def isTemp6 (s : String) : Bool :=
  match s.data with
  | 'T' :: 'E' :: 'M' :: 'P' :: '-' :: rest => rest.length == 6 && rest.all Char.isDigit
  | _ => false

/-- The TEMP form produced by `remove_parcel_from_trip`: `TEMP-` followed
by exactly 8 uppercase hexadecimal characters. -/
def isTempHex8 (s : String) : Bool :=
  match s.data with
  | 'T' :: 'E' :: 'M' :: 'P' :: '-' :: rest =>
    rest.length == 8 && rest.all fun c => c.isDigit || ('A' ≤ c && c ≤ 'F')
  | _ => false

/-! ## Trip expense endpoints (trip_routes.py lines 508-585) -/

/-- Request body for `create_trip_expense` (`TripExpenseCreate`). -/
structure TripExpenseCreate where
  category : String
  amount : ℚ
  currency : String
  expense_date : Nat
  description : Option String
  receipt_url : Option String
deriving DecidableEq

/-- Request body for `update_trip_expense` (`TripExpenseUpdate`);
a `none` field is a field that was absent or null in the request. -/
structure TripExpenseUpdate where
  category : Option String
  amount : Option ℚ
  currency : Option String
  expense_date : Option Nat
  description : Option String
  receipt_url : Option String
deriving DecidableEq

/-- Non-null fields of a `TripExpenseUpdate` (membership of the key in the
filtered `update_dict`). -/
def TripExpenseUpdate.nonempty (u : TripExpenseUpdate) : Bool :=
  u.category.isSome || u.amount.isSome || u.currency.isSome ||
    u.expense_date.isSome || u.description.isSome || u.receipt_url.isSome

/-- Effect of `$set update_dict` on one expense document. -/
def applyExpenseUpdate (u : TripExpenseUpdate) (e : TripExpense) : TripExpense :=
  { e with
    category := u.category.getD e.category
    amount := u.amount.getD e.amount
    currency := u.currency.getD e.currency
    expense_date := u.expense_date.getD e.expense_date
    description := match u.description with | some d => some d | none => e.description
    receipt_url := match u.receipt_url with | some r => some r | none => e.receipt_url }

/-- `create_trip_expense` (trip_routes.py lines 508-531).  Verifies only
that the trip exists for the tenant — there is no trip-lock check on this
endpoint — then inserts the expense. -/
def create_trip_expense (db : DB) (tenant tripId : Nat) (user : User)
    (e : TripExpenseCreate) (newId now : Nat) : Except ApiErr (DB × TripExpense) :=
  match db.trips.find? (fun t => decide (t.id = tripId ∧ t.tenant_id = tenant)) with
  | none => .error ⟨404, "Trip not found"⟩
  | some _ =>
    let exp : TripExpense :=
      { id := newId, trip_id := tripId, category := e.category, amount := e.amount
        currency := e.currency, expense_date := e.expense_date
        description := e.description, receipt_url := e.receipt_url
        created_by := user.id, created_at := now }
    .ok ({ db with trip_expenses := db.trip_expenses ++ [exp] }, exp)

/-- `update_trip_expense` (trip_routes.py lines 533-562).  Locked trips may
only be edited by the owner role. -/
def update_trip_expense (db : DB) (tenant tripId expenseId : Nat) (user : User)
    (u : TripExpenseUpdate) : Except ApiErr (DB × Option TripExpense) :=
  match db.trips.find? (fun t => decide (t.id = tripId ∧ t.tenant_id = tenant)) with
  | none => .error ⟨404, "Trip not found"⟩
  | some trip =>
    if trip.locked_at.isSome ∧ user.role ≠ "owner" then
      .error ⟨403, "Trip is locked. Only owner can edit expenses."⟩
    else if u.nonempty then
      if (db.trip_expenses.find? (fun x => decide (x.id = expenseId ∧ x.trip_id = tripId))).isNone then
        .error ⟨404, "Expense not found"⟩
      else
        let db' := { db with trip_expenses :=
          (updateFirst (fun x => decide (x.id = expenseId ∧ x.trip_id = tripId))
            (applyExpenseUpdate u) db.trip_expenses) }
        .ok (db', db'.trip_expenses.find? (fun x => decide (x.id = expenseId ∧ x.trip_id = tripId)))
    else
      .ok (db, db.trip_expenses.find? (fun x => decide (x.id = expenseId ∧ x.trip_id = tripId)))

/-- `delete_trip_expense` (trip_routes.py lines 564-585). -/
def delete_trip_expense (db : DB) (tenant tripId expenseId : Nat) (user : User) :
    Except ApiErr DB :=
  match db.trips.find? (fun t => decide (t.id = tripId ∧ t.tenant_id = tenant)) with
  | none => .error ⟨404, "Trip not found"⟩
  | some trip =>
    if trip.locked_at.isSome ∧ user.role ≠ "owner" then
      .error ⟨403, "Trip is locked. Only owner can delete expenses."⟩
    else if (db.trip_expenses.find? (fun x => decide (x.id = expenseId ∧ x.trip_id = tripId))).isNone then
      .error ⟨404, "Expense not found"⟩
    else
      .ok { db with trip_expenses :=
        (deleteFirst (fun x => decide (x.id = expenseId ∧ x.trip_id = tripId)) db.trip_expenses) }

/-! ## Shipment assignment endpoints (trip_routes.py lines 245-318, 939-985) -/

/-- Barcode-regeneration loop shared by the assignment endpoints: for each
piece in the snapshot `targets` (in order), `update_one({"id": piece.id})`
sets its barcode to `mk idx piece`, where `idx` indexes the randomness
stream. -/
def setBarcodesLoop (mk : Nat → Piece → String) :
    List Piece → Nat → List Piece → List Piece
  | [], _, ps => ps
  | t :: ts, idx, ps =>
    setBarcodesLoop mk ts (idx + 1)
      (updateFirst (fun q => decide (q.id = t.id)) (fun q => { q with barcode := mk idx t }) ps)

/-- `assign_shipment_to_trip` (trip_routes.py lines 245-283).  Any request
on a locked trip is rejected with 403, with no owner-role exemption; the
shipment sequence is the post-update count of shipments on the trip. -/
def assign_shipment_to_trip (db : DB) (tenant tripId shipId : Nat)
    (rand : Nat → Fin 6 → Fin 10) : Except ApiErr DB :=
  match db.trips.find? (fun t => decide (t.id = tripId ∧ t.tenant_id = tenant)) with
  | none => .error ⟨404, "Trip not found"⟩
  | some trip =>
    if trip.locked_at.isSome then
      .error ⟨403, "Cannot modify shipments on a locked trip"⟩
    else if (db.shipments.find? (fun s => decide (s.id = shipId ∧ s.tenant_id = tenant))).isNone then
      .error ⟨404, "Shipment not found"⟩
    else
      let db1 := { db with shipments :=
        (updateFirst (fun s => decide (s.id = shipId ∧ s.tenant_id = tenant))
          (fun s => { s with trip_id := some tripId, status := .staged }) db.shipments) }
      let targets := db1.pieces.filter (fun p => decide (p.shipment_id = shipId))
      let shipment_count := db1.shipments.countP
        (fun s => decide (s.tenant_id = tenant ∧ s.trip_id = some tripId))
      .ok { db1 with pieces :=
        (setBarcodesLoop
          (fun idx p => generate_barcode (some trip.trip_number) shipment_count p.piece_number (rand idx))
          targets 0 db1.pieces) }

/-- `unassign_shipment_from_trip` (trip_routes.py lines 285-318).  Also
rejects locked trips for every role; resets the shipment to the warehouse
and regenerates every piece barcode via `generate_barcode(None, 0, ...)`. -/
def unassign_shipment_from_trip (db : DB) (tenant tripId shipId : Nat)
    (rand : Nat → Fin 6 → Fin 10) : Except ApiErr DB :=
  match db.trips.find? (fun t => decide (t.id = tripId ∧ t.tenant_id = tenant)) with
  | none => .error ⟨404, "Trip not found"⟩
  | some trip =>
    if trip.locked_at.isSome then
      .error ⟨403, "Cannot modify shipments on a locked trip"⟩
    else if (db.shipments.find? (fun s =>
        decide (s.id = shipId ∧ s.tenant_id = tenant ∧ s.trip_id = some tripId))).isNone then
      .error ⟨404, "Shipment not found or not assigned to this trip"⟩
    else
      let db1 := { db with shipments :=
        (updateFirst (fun s => decide (s.id = shipId ∧ s.tenant_id = tenant ∧ s.trip_id = some tripId))
          (fun s => { s with trip_id := none, status := .warehouse }) db.shipments) }
      let targets := db1.pieces.filter (fun p => decide (p.shipment_id = shipId))
      .ok { db1 with pieces :=
        (setBarcodesLoop (fun idx p => generate_barcode none 0 p.piece_number (rand idx))
          targets 0 db1.pieces) }

/-- `remove_parcel_from_trip` (trip_routes.py lines 939-985), the second
unassignment endpoint.  It also rejects locked trips for every role, and
resets each piece barcode to `TEMP-` plus the first 8 uppercase hex
characters of a fresh uuid (not 6 decimal digits). -/
def remove_parcel_from_trip (db : DB) (tenant tripId parcelId : Nat) (_user : User)
    (randHex : Nat → Fin 8 → Fin 16) : Except ApiErr DB :=
  match db.trips.find? (fun t => decide (t.id = tripId ∧ t.tenant_id = tenant)) with
  | none => .error ⟨404, "Trip not found"⟩
  | some trip =>
    if trip.locked_at.isSome then
      .error ⟨403, "Cannot modify closed trip"⟩
    else if (db.shipments.find? (fun s => decide (s.id = parcelId ∧ s.trip_id = some tripId))).isNone then
      .error ⟨404, "Parcel not found on this trip"⟩
    else
      let db1 := { db with shipments :=
        (updateFirst (fun s => decide (s.id = parcelId))
          (fun s => { s with trip_id := none, status := .warehouse }) db.shipments) }
      let targets := db1.pieces.filter (fun p => decide (p.shipment_id = parcelId))
      .ok { db1 with pieces :=
        (setBarcodesLoop
          (fun idx _ => "TEMP-" ++ String.mk ((List.finRange 8).map fun i => hexCharUpper (randHex idx i)))
          targets 0 db1.pieces) }

/-! ## Trip lifecycle endpoints (trip_routes.py lines 132-243, 806-845) -/

/-- Request body for `update_trip` (`TripUpdate`); a `none` field was
absent or null in the request and is dropped from `update_dict`. -/
structure TripUpdate where
  trip_number : Option String
  route : Option (List String)
  departure_date : Option String
  vehicle_id : Option Nat
  driver_id : Option Nat
  notes : Option String
  status : Option TripStatus
deriving DecidableEq

/-- Effect of `$set update_dict` on the matched trip document, including
the status-derived side-effect timestamps computed against the trip `t0`
that was read at the start of the handler (the matched document equals
`t0` because both queries use the same filter).  `now` is the current
time. -/
def applyTripUpdate (u : TripUpdate) (t0 : Trip) (now : Nat) (t : Trip) : Trip :=
  { t with
    trip_number := u.trip_number.getD t.trip_number
    route := u.route.getD t.route
    departure_date := u.departure_date.getD t.departure_date
    vehicle_id := match u.vehicle_id with | some v => some v | none => t.vehicle_id
    driver_id := match u.driver_id with | some v => some v | none => t.driver_id
    notes := match u.notes with | some v => some v | none => t.notes
    status := u.status.getD t.status
    locked_at :=
      if u.status = some .closed ∧ t0.status ≠ .closed then some now else t.locked_at
    actual_departure :=
      if u.status = some .in_transit ∧ t0.status ≠ .in_transit ∧ t0.actual_departure = none
      then some now else t.actual_departure
    actual_arrival :=
      if u.status = some .delivered ∧ t0.status ≠ .delivered ∧ t0.actual_arrival = none
      then some now else t.actual_arrival }

/-- `update_trip` (trip_routes.py lines 132-201).  Locked trips may only
be modified by the owner role; a trip-number change is re-validated for
per-tenant uniqueness; a status change to `closed` on a not-yet-closed
trip stamps `locked_at`, to `in_transit`/`delivered` stamps
`actual_departure`/`actual_arrival` once.  (When every request field is
null the handler skips the store write; applying the empty update is the
identity, so the state returned is the same either way.) -/
def update_trip (db : DB) (tenant tripId : Nat) (u : TripUpdate) (user : User)
    (now : Nat) : Except ApiErr (DB × Option Trip) :=
  match db.trips.find? (fun t => decide (t.id = tripId ∧ t.tenant_id = tenant)) with
  | none => .error ⟨404, "Trip not found"⟩
  | some trip =>
    if trip.locked_at.isSome ∧ user.role ≠ "owner" then
      .error ⟨403, "Trip is locked. Only owner can modify."⟩
    else if (match u.trip_number with
        | some tn => decide (tn ≠ trip.trip_number) &&
            (db.trips.any fun t => decide (t.tenant_id = tenant ∧ t.trip_number = tn ∧ t.id ≠ tripId))
        | none => false) then
      .error ⟨400, "Trip number already exists for this tenant"⟩
    else
      let db' := { db with trips :=
        (updateFirst (fun t => decide (t.id = tripId ∧ t.tenant_id = tenant))
          (applyTripUpdate u trip now) db.trips) }
      .ok (db', db'.trips.find? (fun t => decide (t.id = tripId ∧ t.tenant_id = tenant)))

/-- `close_trip` (trip_routes.py lines 806-845).  Owner-only; a trip whose
`locked_at` is already set is rejected with 400 "Trip is already closed";
otherwise status is set to `closed` and `locked_at` stamped (the update
filter is by id only). -/
def close_trip (db : DB) (tenant tripId : Nat) (user : User) (now : Nat) :
    Except ApiErr DB :=
  if user.role ≠ "owner" then
    .error ⟨403, "Only owner can close trips"⟩
  else
    match db.trips.find? (fun t => decide (t.id = tripId ∧ t.tenant_id = tenant)) with
    | none => .error ⟨404, "Trip not found"⟩
    | some trip =>
      if trip.locked_at.isSome then
        .error ⟨400, "Trip is already closed"⟩
      else
        .ok { db with trips :=
          (updateFirst (fun t => decide (t.id = tripId))
            (fun t => { t with status := .closed, locked_at := some now }) db.trips) }

/-- `delete_trip` (trip_routes.py lines 203-243).  Allowed when the trip
is unlocked or the actor is owner; `update_many` resets every shipment of
the tenant assigned to the trip to the warehouse, `delete_many` removes
the trip's expenses, and the trip itself is deleted.  Piece barcodes are
not touched on this path. -/
def delete_trip (db : DB) (tenant tripId : Nat) (user : User) :
    Except ApiErr DB :=
  match db.trips.find? (fun t => decide (t.id = tripId ∧ t.tenant_id = tenant)) with
  | none => .error ⟨404, "Trip not found"⟩
  | some trip =>
    if trip.locked_at.isSome ∧ user.role ≠ "owner" then
      .error ⟨403, "Cannot delete locked trip"⟩
    else
      .ok { db with
        shipments :=
          (db.shipments.map fun s =>
            if s.trip_id = some tripId ∧ s.tenant_id = tenant then
              { s with trip_id := none, status := .warehouse }
            else s)
        trip_expenses := db.trip_expenses.filter (fun e => decide (e.trip_id ≠ tripId))
        trips := deleteFirst (fun t => decide (t.id = tripId ∧ t.tenant_id = tenant)) db.trips }

/-! ## Invoice generation for a trip (trip_routes.py lines 847-937) -/

/-- Python `round(x, 2)`: round to 2 decimal places, ties to even. -/
def round2 (q : ℚ) : ℚ :=
  let x := q * 100
  let f : ℤ := ⌊x⌋
  let r := x - f
  (if r < 1 / 2 then (f : ℚ)
   else if 1 / 2 < r then (f : ℚ) + 1
   else if f % 2 = 0 then (f : ℚ) else (f : ℚ) + 1) / 100

/-- Client ids in order of first occurrence (Python dict insertion
order while grouping parcels by client, skipping parcels with no
client). -/
def dedupFirst : List Nat → List Nat
  | [] => []
  | c :: cs => c :: (dedupFirst cs).filter (fun x => decide (x ≠ c))

/-- The idempotence guard of `generate_trip_invoices`: Mongo
`find_one({"tenant_id": .., "client_id": .., "shipment_ids": {"$all": ids}})`
matches an invoice whose `shipment_ids` array contains every id in
`ids`. -/
def existsInvoiceAll (invoices : List Invoice) (tenant cid : Nat) (ids : List Nat) : Bool :=
  invoices.any fun inv =>
    decide (inv.tenant_id = tenant ∧ inv.client_id = cid) &&
      ids.all (fun i => inv.shipment_ids.contains i)

/-- The draft invoice document inserted by `generate_trip_invoices` for
the client group `cid` of the trip's `parcels` snapshot, numbered from the
tenant's total invoice count in the current store `db`; `newInvId k` is
the fresh uuid for the `k`-th created invoice. -/
def mkTripInvoice (tenant tripId year now : Nat) (user : User)
    (newInvId : Nat → Nat) (parcels : List Shipment) (cid : Nat) (db : DB) (k : Nat) :
    Invoice :=
  let group := parcels.filter (fun s => decide (s.client_id = some cid))
  let shipIds := group.map (·.id)
  let count := db.invoices.countP (fun inv => decide (inv.tenant_id = tenant))
  let invoice_number := "INV-" ++ toString year ++ "-" ++ padNum 4 (count + 1)
  let total_weight := (group.map (·.total_weight)).sum
  let rate_per_kg :=
    match db.client_rates.find? (fun r => decide (r.client_id = cid)) with
    | some r => r.rate_per_kg.getD 50
    | none => 50
  let subtotal := total_weight * rate_per_kg
  let vat := subtotal * (15 / 100)
  let total := subtotal + vat
  { id := newInvId k, tenant_id := tenant, client_id := cid
    trip_id := some tripId, invoice_number := invoice_number
    shipment_ids := shipIds, subtotal := round2 subtotal
    adjustments := 0, vat := round2 vat, total := round2 total
    currency := "ZAR", status := .draft, issue_year := year
    due_date := now + 30, sent_at := none, sent_by := none, paid_at := none
    created_by := user.id, created_at := now }

/-- Loop body of `generate_trip_invoices` over the client groups: skip a
group when the `$all` guard finds an existing invoice, otherwise create an
invoice numbered from the tenant's current total invoice count.  Returns
the new store and the number of invoices created.  `parcels` is the
snapshot of the trip's shipments read before the loop, `k` indexes the
fresh-uuid supply `newInvId`. -/
def genInvoicesLoop (tenant tripId year now : Nat) (user : User)
    (newInvId : Nat → Nat) (parcels : List Shipment) :
    List Nat → DB → Nat → DB × Nat
  | [], db, _ => (db, 0)
  | cid :: rest, db, k =>
    let group := parcels.filter (fun s => decide (s.client_id = some cid))
    let shipIds := group.map (·.id)
    if existsInvoiceAll db.invoices tenant cid shipIds then
      genInvoicesLoop tenant tripId year now user newInvId parcels rest db k
    else
      let inv := mkTripInvoice tenant tripId year now user newInvId parcels cid db k
      let r := genInvoicesLoop tenant tripId year now user newInvId parcels rest
        { db with invoices := db.invoices ++ [inv] } (k + 1)
      (r.1, r.2 + 1)

/-- `generate_trip_invoices` (trip_routes.py lines 847-937): group the
trip's parcels by client and create one draft invoice per not-yet-invoiced
group.  Returns the store and the number of invoices created. -/
def generate_trip_invoices (db : DB) (tenant tripId : Nat) (user : User)
    (year now : Nat) (newInvId : Nat → Nat) : Except ApiErr (DB × Nat) :=
  match db.trips.find? (fun t => decide (t.id = tripId ∧ t.tenant_id = tenant)) with
  | none => .error ⟨404, "Trip not found"⟩
  | some _ =>
    let parcels := db.shipments.filter
      (fun s => decide (s.trip_id = some tripId ∧ s.tenant_id = tenant))
    let cids := dedupFirst (parcels.filterMap (·.client_id))
    .ok (genInvoicesLoop tenant tripId year now user newInvId parcels cids db 0)

/-! ## Invoice read endpoints with lazy overdue flip (server.py lines 1445-1520) -/

/-- One iteration of the overdue check: an invoice from the query result
that is not `paid`/`overdue` and whose `due_date` has passed is flipped to
`overdue` both in the store (`update_one({"id": ...})`) and in the
returned copy. -/
def overdueLoop (today : Nat) : List Invoice → DB → DB × List Invoice
  | [], db => (db, [])
  | inv :: rest, db =>
    if inv.status ≠ .paid ∧ inv.status ≠ .overdue ∧ inv.due_date < today then
      let db' := { db with invoices :=
        (updateFirst (fun j => decide (j.id = inv.id))
          (fun j => { j with status := .overdue }) db.invoices) }
      let r := overdueLoop today rest db'
      (r.1, { inv with status := .overdue } :: r.2)
    else
      let r := overdueLoop today rest db
      (r.1, inv :: r.2)

/-- `list_invoices` (server.py lines 1445-1475): filter by tenant and the
optional status/client filters, then lazily flip overdue invoices in the
store and report the flipped status. -/
def list_invoices (db : DB) (tenant : Nat) (statusF : Option InvoiceStatus)
    (clientF : Option Nat) (today : Nat) : DB × List Invoice :=
  let sel := db.invoices.filter fun i =>
    decide (i.tenant_id = tenant) &&
      (match statusF with | some s => decide (i.status = s) | none => true) &&
      (match clientF with | some c => decide (i.client_id = c) | none => true)
  overdueLoop today sel db

/-- `get_invoice` (server.py lines 1477-1520): returns the invoice (with
the lazily flipped status), the summed payment ledger and the balance due,
updating the stored status when the overdue check fires. -/
def get_invoice (db : DB) (tenant invId today : Nat) :
    Except ApiErr (DB × Invoice × ℚ × ℚ) :=
  match db.invoices.find? (fun i => decide (i.id = invId ∧ i.tenant_id = tenant)) with
  | none => .error ⟨404, "Invoice not found"⟩
  | some inv =>
    let total_paid := ((db.payments.filter fun p =>
      decide (p.invoice_id = some invId ∧ p.tenant_id = tenant)).map (·.amount)).sum
    if inv.status ≠ .paid ∧ inv.status ≠ .overdue ∧ inv.due_date < today then
      let db' := { db with invoices :=
        (updateFirst (fun j => decide (j.id = invId))
          (fun j => { j with status := .overdue }) db.invoices) }
      .ok (db', { inv with status := .overdue }, total_paid, inv.total - total_paid)
    else
      .ok (db, inv, total_paid, inv.total - total_paid)

/-! ## Invoice update and line items (server.py lines 1564-1736) -/

/-- Request body for `update_invoice` (`InvoiceUpdate`). -/
structure InvoiceUpdate where
  status : Option InvoiceStatus
  subtotal : Option ℚ
  adjustments : Option ℚ
  currency : Option String
deriving DecidableEq

/-- `update_invoice` (server.py lines 1564-1600).  `total` is always
recomputed as the (possibly updated) subtotal plus the (possibly updated)
adjustments; a draft→sent transition stamps `sent_at`/`sent_by` and a
transition into `paid` stamps `paid_at`. -/
def update_invoice (db : DB) (tenant invId : Nat) (user : User)
    (u : InvoiceUpdate) (now : Nat) : Except ApiErr (DB × Option Invoice) :=
  match db.invoices.find? (fun i => decide (i.id = invId ∧ i.tenant_id = tenant)) with
  | none => .error ⟨404, "Invoice not found"⟩
  | some inv =>
    let subtotal := u.subtotal.getD inv.subtotal
    let adjustments := u.adjustments.getD inv.adjustments
    let db' := { db with invoices :=
      (updateFirst (fun j => decide (j.id = invId ∧ j.tenant_id = tenant))
        (fun j => { j with
          status := u.status.getD j.status
          currency := u.currency.getD j.currency
          subtotal := subtotal
          adjustments := adjustments
          total := subtotal + adjustments
          sent_at := if u.status = some .sent ∧ inv.status = .draft then some now else j.sent_at
          sent_by := if u.status = some .sent ∧ inv.status = .draft then some user.id else j.sent_by
          paid_at := if u.status = some .paid ∧ inv.status ≠ .paid then some now else j.paid_at })
        db.invoices) }
    .ok (db', db'.invoices.find? (fun i => decide (i.id = invId ∧ i.tenant_id = tenant)))

/-- Request body for `add_invoice_item` (`InvoiceLineItemCreate`). -/
structure LineItemCreate where
  shipment_id : Option Nat
  description : String
  quantity : Nat
  weight : Option ℚ
  rate : ℚ
deriving DecidableEq

/-- `add_invoice_item` (server.py lines 1649-1695).  Draft-only; the item
amount is weight × rate when a (truthy, i.e. non-zero) weight is present,
else quantity × rate; the invoice subtotal is re-summed over all its items
and `total := subtotal + adjustments` with the adjustments of the invoice
document read at the start. -/
def add_invoice_item (db : DB) (tenant invId : Nat) (it : LineItemCreate)
    (newId : Nat) : Except ApiErr (DB × LineItem) :=
  match db.invoices.find? (fun i => decide (i.id = invId ∧ i.tenant_id = tenant)) with
  | none => .error ⟨404, "Invoice not found"⟩
  | some inv =>
    if inv.status ≠ .draft then
      .error ⟨400, "Can only add items to draft invoices"⟩
    else
      let amount := match it.weight with
        | some w => if w = 0 then (it.quantity : ℚ) * it.rate else w * it.rate
        | none => (it.quantity : ℚ) * it.rate
      let item : LineItem :=
        { id := newId, invoice_id := invId, shipment_id := it.shipment_id
          description := it.description, quantity := it.quantity
          weight := it.weight, rate := it.rate, amount := amount }
      let items' := db.line_items ++ [item]
      let new_subtotal := ((items'.filter fun i => decide (i.invoice_id = invId)).map (·.amount)).sum
      let new_total := new_subtotal + inv.adjustments
      .ok ({ db with
        line_items := items'
        invoices :=
          (updateFirst (fun j => decide (j.id = invId))
            (fun j => { j with subtotal := new_subtotal, total := new_total }) db.invoices) },
        item)

/-- `delete_invoice_item` (server.py lines 1697-1736).  Draft-only;
deletes the item and re-sums the subtotal over the remaining items. -/
def delete_invoice_item (db : DB) (tenant invId itemId : Nat) :
    Except ApiErr DB :=
  match db.invoices.find? (fun i => decide (i.id = invId ∧ i.tenant_id = tenant)) with
  | none => .error ⟨404, "Invoice not found"⟩
  | some inv =>
    if inv.status ≠ .draft then
      .error ⟨400, "Can only remove items from draft invoices"⟩
    else if (db.line_items.find? (fun i => decide (i.id = itemId ∧ i.invoice_id = invId))).isNone then
      .error ⟨404, "Item not found"⟩
    else
      let items' := deleteFirst (fun i => decide (i.id = itemId ∧ i.invoice_id = invId)) db.line_items
      let new_subtotal := ((items'.filter fun i => decide (i.invoice_id = invId)).map (·.amount)).sum
      let new_total := new_subtotal + inv.adjustments
      .ok { db with
        line_items := items'
        invoices :=
          (updateFirst (fun j => decide (j.id = invId))
            (fun j => { j with subtotal := new_subtotal, total := new_total }) db.invoices) }

/-! ## Payment endpoints (server.py lines 1764-1862) -/

/-- Request body for `create_payment` (`PaymentCreate`). -/
structure PaymentCreate where
  client_id : Nat
  invoice_id : Option Nat
  amount : ℚ
  payment_date : Nat
deriving DecidableEq

/-- `create_payment` (server.py lines 1764-1817).  Verifies the client
and, when given, the invoice; inserts the payment; then re-sums every
payment of that invoice and marks the invoice `paid` (stamping `paid_at`)
when the sum reaches the invoice total.  The re-fetch of the invoice is by
id only; its `none` branch is unreachable because the invoice was just
verified to exist. -/
def create_payment (db : DB) (tenant : Nat) (user : User) (pc : PaymentCreate)
    (newId now : Nat) : Except ApiErr (DB × Payment) :=
  if (db.clients.find? (fun c => decide (c.id = pc.client_id ∧ c.tenant_id = tenant))).isNone then
    .error ⟨404, "Client not found"⟩
  else if (match pc.invoice_id with
      | some i => (db.invoices.find? (fun j => decide (j.id = i ∧ j.tenant_id = tenant))).isNone
      | none => false : Bool) then
    .error ⟨404, "Invoice not found"⟩
  else
    let payment : Payment :=
      { id := newId, tenant_id := tenant, client_id := pc.client_id
        invoice_id := pc.invoice_id, amount := pc.amount
        payment_date := pc.payment_date, created_by := user.id }
    let db1 := { db with payments := db.payments ++ [payment] }
    match pc.invoice_id with
    | none => .ok (db1, payment)
    | some i =>
      match db1.invoices.find? (fun j => decide (j.id = i)) with
      | none => .ok (db1, payment)
      | some inv =>
        let total_paid := ((db1.payments.filter fun p =>
          decide (p.invoice_id = some i)).map (·.amount)).sum
        if inv.total ≤ total_paid then
          .ok ({ db1 with invoices :=
            (updateFirst (fun j => decide (j.id = i))
              (fun j => { j with status := .paid, paid_at := some now }) db1.invoices) },
            payment)
        else
          .ok (db1, payment)

/-- `delete_payment` (server.py lines 1819-1862).  Owner/finance only;
deletes the payment and, when its invoice was `paid` and the re-summed
remaining ledger falls below the total, reverts the status to `overdue`
(due date passed) or `sent` and clears `paid_at`. -/
def delete_payment (db : DB) (tenant paymentId : Nat) (user : User) (today : Nat) :
    Except ApiErr DB :=
  if ¬(user.role = "owner" ∨ user.role = "finance") then
    .error ⟨403, "Only owner/finance can delete payments"⟩
  else
    match db.payments.find? (fun p => decide (p.id = paymentId ∧ p.tenant_id = tenant)) with
    | none => .error ⟨404, "Payment not found"⟩
    | some payment =>
      let db1 := { db with payments :=
        (deleteFirst (fun p => decide (p.id = paymentId ∧ p.tenant_id = tenant)) db.payments) }
      match payment.invoice_id with
      | none => .ok db1
      | some i =>
        match db1.invoices.find? (fun j => decide (j.id = i)) with
        | none => .ok db1
        | some inv =>
          if inv.status = .paid then
            let total_paid := ((db1.payments.filter fun p =>
              decide (p.invoice_id = some i)).map (·.amount)).sum
            if total_paid < inv.total then
              let newStatus : InvoiceStatus := if inv.due_date < today then .overdue else .sent
              .ok { db1 with invoices :=
                (updateFirst (fun j => decide (j.id = i))
                  (fun j => { j with status := newStatus, paid_at := none }) db1.invoices) }
            else .ok db1
          else .ok db1

/-! ## Shipment update (server.py lines 996-1017) -/

/-- Request body for `update_shipment` (`ShipmentUpdate`). -/
structure ShipmentUpdate where
  description : Option String
  destination : Option String
  total_pieces : Option Nat
  total_weight : Option ℚ
  total_cbm : Option ℚ
  status : Option ShipmentStatus
  trip_id : Option Nat
deriving DecidableEq

/-- Non-null fields of a `ShipmentUpdate`. -/
def ShipmentUpdate.nonempty (u : ShipmentUpdate) : Bool :=
  u.description.isSome || u.destination.isSome || u.total_pieces.isSome ||
    u.total_weight.isSome || u.total_cbm.isSome || u.status.isSome || u.trip_id.isSome

/-- Effect of `$set update_dict` on the matched shipment document. -/
def applyShipmentUpdate (u : ShipmentUpdate) (s : Shipment) : Shipment :=
  { s with
    description := u.description.getD s.description
    destination := u.destination.getD s.destination
    total_pieces := u.total_pieces.getD s.total_pieces
    total_weight := u.total_weight.getD s.total_weight
    total_cbm := match u.total_cbm with | some v => some v | none => s.total_cbm
    status := u.status.getD s.status
    trip_id := match u.trip_id with | some v => some v | none => s.trip_id }

/-- `update_shipment` (server.py lines 996-1017).  Null request fields are
dropped; when no field remains the store write is skipped and the current
document is returned. -/
def update_shipment (db : DB) (tenant shipId : Nat) (u : ShipmentUpdate) :
    Except ApiErr (DB × Option Shipment) :=
  if u.nonempty then
    if (db.shipments.find? (fun s => decide (s.id = shipId ∧ s.tenant_id = tenant))).isNone then
      .error ⟨404, "Shipment not found"⟩
    else
      let db' := { db with shipments :=
        (updateFirst (fun s => decide (s.id = shipId ∧ s.tenant_id = tenant))
          (applyShipmentUpdate u) db.shipments) }
      .ok (db', db'.shipments.find? (fun s => decide (s.id = shipId ∧ s.tenant_id = tenant)))
  else
    .ok (db, db.shipments.find? (fun s => decide (s.id = shipId ∧ s.tenant_id = tenant)))

/-! ## Concrete fixtures for witnesses and counterexamples -/

/-- A planning-stage trip of tenant 1. -/
def trip1 : Trip :=
  { id := 1, tenant_id := 1, trip_number := "S1", route := ["JHB", "HRE"]
    departure_date := "2025-06-01", vehicle_id := none, driver_id := none
    notes := none, status := .planning, locked_at := none
    actual_departure := none, actual_arrival := none, created_by := 7, created_at := 0 }

/-- The same trip after closing: `locked_at` is set. -/
def lockedTrip1 : Trip := { trip1 with status := .closed, locked_at := some 50 }

/-- A warehouse shipment of tenant 1 for client 100. -/
def ship1 : Shipment :=
  { id := 10, tenant_id := 1, client_id := some 100, trip_id := none
    status := .warehouse, description := "boxes", destination := "HRE"
    total_pieces := 1, total_weight := 10, total_cbm := none
    created_by := 7, created_at := 0 }

/-- The single piece of `ship1`, carrying a TEMP barcode. -/
def piece1 : Piece :=
  { id := 20, shipment_id := 10, piece_number := 1, weight := 10, barcode := "TEMP-111111" }

/-- An expense already recorded on trip 1. -/
def exp1 : TripExpense :=
  { id := 30, trip_id := 1, category := "fuel", amount := 100, currency := "ZAR"
    expense_date := 10, description := none, receipt_url := none
    created_by := 7, created_at := 0 }

/-- Client 100 of tenant 1. -/
def client1 : Client := { id := 100, tenant_id := 1, name := "C1", payment_terms_days := 30 }

/-- The tenant owner. -/
def owner1 : User := { id := 7, role := "owner" }

/-- A non-owner user. -/
def manager1 : User := { id := 8, role := "manager" }

/-- Store with the locked trip. -/
def dbLocked : DB :=
  { clients := [client1], client_rates := [], trips := [lockedTrip1]
    shipments := [ship1], pieces := [piece1], trip_expenses := [exp1]
    invoices := [], line_items := [], payments := [] }

/-- Store with the unlocked trip. -/
def dbOpen : DB :=
  { clients := [client1], client_rates := [], trips := [trip1]
    shipments := [ship1], pieces := [piece1], trip_expenses := [exp1]
    invoices := [], line_items := [], payments := [] }

/-- A fresh expense request. -/
def expReq : TripExpenseCreate :=
  { category := "tolls", amount := 50, currency := "ZAR", expense_date := 11
    description := none, receipt_url := none }

/-- An expense update touching only the amount. -/
def expUpd : TripExpenseUpdate :=
  { category := none, amount := some 75, currency := none, expense_date := none
    description := none, receipt_url := none }

/-- A trip update request that only sets the status to `closed`. -/
def updClose : TripUpdate :=
  { trip_number := none, route := none, departure_date := none, vehicle_id := none
    driver_id := none, notes := none, status := some .closed }

/-- A trip update request setting notes and status. -/
def updNotes : TripUpdate :=
  { trip_number := none, route := none, departure_date := none, vehicle_id := none
    driver_id := none, notes := some "checked", status := some .in_transit }

/-- A shipment update request setting only the destination. -/
def shipUpd : ShipmentUpdate :=
  { description := none, destination := some "BYO", total_pieces := none
    total_weight := none, total_cbm := none, status := none, trip_id := none }

/-- A sent invoice of tenant 1 for client 100 whose due date has passed. -/
def invSent : Invoice :=
  { id := 40, tenant_id := 1, client_id := 100, trip_id := none
    invoice_number := "INV-2025-0001", shipment_ids := [], subtotal := 100
    adjustments := 0, vat := 0, total := 100, currency := "ZAR", status := .sent
    issue_year := 2025, due_date := 10, sent_at := some 5, sent_by := some 7
    paid_at := none, created_by := 7, created_at := 0 }

/-- A draft invoice of tenant 1 with nonzero adjustments. -/
def invDraft : Invoice :=
  { invSent with
    id := 41, invoice_number := "INV-2025-0002", status := InvoiceStatus.draft,
    subtotal := 0, adjustments := 5, total := 5, sent_at := none, sent_by := none }

/-- The paid version of `invSent`. -/
def invPaid : Invoice := { invSent with status := .paid, paid_at := some 15 }

/-- A payment fully covering `invSent`. -/
def pay1 : Payment :=
  { id := 50, tenant_id := 1, client_id := 100, invoice_id := some 40
    amount := 100, payment_date := 15, created_by := 7 }

/-- Store with the sent, past-due invoice. -/
def dbSent : DB := { dbOpen with invoices := [invSent] }

/-- Store with the draft invoice. -/
def dbDraft : DB := { dbOpen with invoices := [invDraft] }

/-- Store with the paid invoice and its covering payment. -/
def dbPaid : DB := { dbOpen with invoices := [invPaid], payments := [pay1] }

/-- `ship1` assigned to trip 1. -/
def shipAssigned : Shipment := { ship1 with trip_id := some 1, status := .staged }

/-- Store with the unlocked trip carrying `shipAssigned`. -/
def dbAssigned : DB := { dbOpen with shipments := [shipAssigned] }

/-- A 2024 invoice of tenant 1 for an unrelated client, so that the tenant
has one all-time invoice but zero current-year (2025) invoices. -/
def inv2024 : Invoice :=
  { invSent with
    id := 42, client_id := 999, invoice_number := "INV-2024-0001",
    issue_year := 2024 }

/-- Store in which the tenant's only invoice is from a previous year and a
shipment is assigned to the trip. -/
def dbPrevYear : DB := { dbOpen with shipments := [shipAssigned], invoices := [inv2024] }

/-- Result store of one invoice-generation run on `dbPrevYear`. -/
def genOnce : DB :=
  match generate_trip_invoices dbPrevYear 1 1 owner1 2025 90 (fun k => 200 + k) with
  | .ok r => r.1
  | .error _ => dbPrevYear

/-- Result store of one invoice-generation run on `dbAssigned`. -/
def genA : DB :=
  match generate_trip_invoices dbAssigned 1 1 owner1 2025 90 (fun k => 200 + k) with
  | .ok r => r.1
  | .error _ => dbAssigned

/-- A payment request fully covering `invSent`. -/
def payReq : PaymentCreate :=
  { client_id := 100, invoice_id := some 40, amount := 100, payment_date := 15 }

/-- A line-item request with a truthy weight. -/
def itemReq : LineItemCreate :=
  { shipment_id := some 10, description := "freight", quantity := 1
    weight := some 10, rate := 3 }

/-! ## Toolbox lemmas about the store primitives -/

theorem mem_updateFirst {α} {p : α → Bool} {f : α → α} {l : List α} {q : α}
    (h : q ∈ updateFirst p f l) : q ∈ l ∨ ∃ x, x ∈ l ∧ p x = true ∧ q = f x := by
  induction l with
  | nil => simp [updateFirst] at h
  | cons a as ih =>
    by_cases hp : p a
    · rw [updateFirst, if_pos hp] at h
      rcases List.mem_cons.mp h with h | h
      · exact Or.inr ⟨a, List.mem_cons_self a as, hp, h⟩
      · exact Or.inl (List.mem_cons_of_mem _ h)
    · rw [updateFirst, if_neg hp] at h
      rcases List.mem_cons.mp h with h | h
      · exact Or.inl (h ▸ List.mem_cons_self a as)
      · rcases ih h with h' | ⟨x, hx, hpx, hq⟩
        · exact Or.inl (List.mem_cons_of_mem _ h')
        · exact Or.inr ⟨x, List.mem_cons_of_mem _ hx, hpx, hq⟩

theorem map_key_updateFirst {α β} (key : α → β) (p : α → Bool) (f : α → α)
    (hf : ∀ x, key (f x) = key x) :
    ∀ l : List α, (updateFirst p f l).map key = l.map key := by
  intro l
  induction l with
  | nil => rfl
  | cons a as ih =>
    by_cases hp : p a
    · rw [updateFirst, if_pos hp, List.map_cons, List.map_cons, hf]
    · rw [updateFirst, if_neg hp, List.map_cons, List.map_cons, ih]

theorem find?_mem_updateFirst {α} {p : α → Bool} {f : α → α} {l : List α} {x : α}
    (h : l.find? p = some x) : f x ∈ updateFirst p f l := by
  induction l with
  | nil => simp [List.find?] at h
  | cons a as ih =>
    by_cases hp : p a
    · rw [List.find?_cons_of_pos _ hp, Option.some_inj] at h
      subst h
      rw [updateFirst, if_pos hp]
      exact List.mem_cons_self _ _
    · rw [List.find?_cons_of_neg _ hp] at h
      rw [updateFirst, if_neg hp]
      exact List.mem_cons_of_mem _ (ih h)

theorem find?_of_unique_key {α} (key : α → Nat) (k : Nat) (q : α → Bool)
    (himp : ∀ y, q y = true → key y = k) :
    ∀ l : List α, (l.map key).Nodup → ∀ x, x ∈ l → key x = k → q x = true →
      l.find? q = some x := by
  intro l
  induction l with
  | nil => intro _ x hx; cases hx
  | cons a as ih =>
    intro hnd x hx hkey hqx
    rw [List.map_cons, List.nodup_cons] at hnd
    by_cases hqa : q a
    · rcases List.mem_cons.mp hx with rfl | hx'
      · exact List.find?_cons_of_pos _ hqa
      · have h1 : key a ∈ as.map key := by
          rw [himp a hqa, ← hkey]; exact List.mem_map_of_mem key hx'
        exact absurd h1 hnd.1
    · rcases List.mem_cons.mp hx with rfl | hx'
      · exact absurd hqx hqa
      · rw [List.find?_cons_of_neg _ hqa]
        exact ih hnd.2 x hx' hkey hqx

theorem eq_of_key_nodup {α} (key : α → Nat) :
    ∀ l : List α, (l.map key).Nodup → ∀ x y, x ∈ l → y ∈ l → key x = key y → x = y := by
  intro l
  induction l with
  | nil => intro _ x y hx; cases hx
  | cons a as ih =>
    intro hnd x y hx hy hk
    rw [List.map_cons, List.nodup_cons] at hnd
    rcases List.mem_cons.mp hx with rfl | hx' <;> rcases List.mem_cons.mp hy with rfl | hy'
    · rfl
    · exact absurd (hk ▸ List.mem_map_of_mem key hy') hnd.1
    · exact absurd (hk ▸ List.mem_map_of_mem key hx') hnd.1
    · exact ih hnd.2 x y hx' hy' hk

theorem all_key_updateFirst {α} (key : α → Nat) (k : Nat) (p : α → Bool) (f : α → α) :
    ∀ l : List α, (l.map key).Nodup → ∀ x, l.find? p = some x → key x = k →
      ∀ j ∈ updateFirst p f l, key j = k → j = f x := by
  intro l
  induction l with
  | nil => intro _ x hx; simp [List.find?] at hx
  | cons a as ih =>
    intro hnd x hfind hkx j hj hkj
    rw [List.map_cons, List.nodup_cons] at hnd
    by_cases hp : p a
    · rw [List.find?_cons_of_pos _ hp, Option.some_inj] at hfind
      subst hfind
      rw [updateFirst, if_pos hp] at hj
      rcases List.mem_cons.mp hj with rfl | hj'
      · rfl
      · have h1 : key a ∈ as.map key := by
          rw [hkx, ← hkj]; exact List.mem_map_of_mem key hj'
        exact absurd h1 hnd.1
    · rw [List.find?_cons_of_neg _ hp] at hfind
      rw [updateFirst, if_neg hp] at hj
      rcases List.mem_cons.mp hj with rfl | hj'
      · have h1 : key j ∈ as.map key := by
          rw [hkj, ← hkx]; exact List.mem_map_of_mem key (List.mem_of_find?_eq_some hfind)
        exact absurd h1 hnd.1
      · exact ih hnd.2 x hfind hkx j hj' hkj

theorem all_key_updateFirst_key {α} (key : α → Nat) (k : Nat) (f : α → α) :
    ∀ l : List α, (l.map key).Nodup →
      ∀ j ∈ updateFirst (fun y => decide (key y = k)) f l, key j = k →
        ∃ x, x ∈ l ∧ key x = k ∧ j = f x := by
  intro l
  induction l with
  | nil => intro _ j hj; simp [updateFirst] at hj
  | cons a as ih =>
    intro hnd j hj hkj
    rw [List.map_cons, List.nodup_cons] at hnd
    by_cases hk : key a = k
    · rw [updateFirst, if_pos (by simpa using hk)] at hj
      rcases List.mem_cons.mp hj with rfl | hj'
      · exact ⟨a, List.mem_cons_self a as, hk, rfl⟩
      · exact absurd (hk ▸ hkj ▸ List.mem_map_of_mem key hj') hnd.1
    · rw [updateFirst, if_neg (by simpa using hk)] at hj
      rcases List.mem_cons.mp hj with rfl | hj'
      · exact absurd hkj hk
      · rcases ih hnd.2 j hj' hkj with ⟨x, hx, hkx, he⟩
        exact ⟨x, List.mem_cons_of_mem _ hx, hkx, he⟩

theorem find?_updateFirst_self {α} (p q : α → Bool) (f : α → α)
    (himp : ∀ y, q y = true → p y = true) :
    ∀ l : List α, ∀ x, l.find? p = some x → q (f x) = true →
      (updateFirst p f l).find? q = some (f x) := by
  intro l
  induction l with
  | nil => intro x hx; simp [List.find?] at hx
  | cons a as ih =>
    intro x hfind hq
    by_cases hp : p a
    · rw [List.find?_cons_of_pos _ hp, Option.some_inj] at hfind
      subst hfind
      rw [updateFirst, if_pos hp]
      exact List.find?_cons_of_pos _ hq
    · rw [List.find?_cons_of_neg _ hp] at hfind
      rw [updateFirst, if_neg hp]
      have hqa : ¬ q a = true := fun h => hp (himp a h)
      rw [List.find?_cons_of_neg _ hqa]
      exact ih x hfind hq

theorem digitChar_isDigit : ∀ d : Fin 10, (digitChar d).isDigit = true := by decide

theorem hexCharUpper_isHex :
    ∀ d : Fin 16, ((hexCharUpper d).isDigit || ('A' ≤ hexCharUpper d && hexCharUpper d ≤ 'F')) = true := by
  decide

theorem isTemp6_chars (l : List Char) (hlen : l.length = 6)
    (hall : ∀ c ∈ l, c.isDigit = true) :
    isTemp6 ("TEMP-" ++ String.mk l) = true := by
  have hr : isTemp6 ("TEMP-" ++ String.mk l) = (l.length == 6 && l.all Char.isDigit) := rfl
  rw [hr, hlen]
  simp only [beq_self_eq_true, Bool.true_and, List.all_eq_true]
  exact hall

theorem isTemp6_generate (pn : Nat) (rand : Fin 6 → Fin 10) :
    isTemp6 (generate_barcode none 0 pn rand) = true := by
  apply isTemp6_chars
  · simp
  · intro c hc
    simp only [List.mem_map] at hc
    obtain ⟨i, _, rfl⟩ := hc
    exact digitChar_isDigit (rand i)

theorem isTempHex8_chars (l : List Char) (hlen : l.length = 8)
    (hall : ∀ c ∈ l, (c.isDigit || ('A' ≤ c && c ≤ 'F')) = true) :
    isTempHex8 ("TEMP-" ++ String.mk l) = true := by
  have hr : isTempHex8 ("TEMP-" ++ String.mk l) =
      (l.length == 8 && l.all fun c => c.isDigit || ('A' ≤ c && c ≤ 'F')) := rfl
  rw [hr, hlen]
  simp only [beq_self_eq_true, Bool.true_and, List.all_eq_true]
  exact hall

theorem isTempHex8_generate (r : Fin 8 → Fin 16) :
    isTempHex8 ("TEMP-" ++ String.mk ((List.finRange 8).map fun i => hexCharUpper (r i))) = true := by
  apply isTempHex8_chars
  · simp
  · intro c hc
    simp only [List.mem_map] at hc
    obtain ⟨i, _, rfl⟩ := hc
    exact hexCharUpper_isHex (r i)

theorem setBarcodesLoop_map_id (mk : Nat → Piece → String) :
    ∀ (ts : List Piece) (idx : Nat) (ps : List Piece),
      (setBarcodesLoop mk ts idx ps).map Piece.id = ps.map Piece.id := by
  intro ts
  induction ts with
  | nil => intro idx ps; rfl
  | cons t ts ih =>
    intro idx ps
    rw [setBarcodesLoop, ih, map_key_updateFirst]
    intro x
    rfl

theorem setBarcodesLoop_spec (mk : Nat → Piece → String) :
    ∀ (ts : List Piece) (idx : Nat) (ps : List Piece), (ps.map Piece.id).Nodup →
      ∀ q ∈ setBarcodesLoop mk ts idx ps,
        (q ∈ ps ∧ ∀ t ∈ ts, ¬(t.id = q.id)) ∨ ∃ i t, q.barcode = mk i t := by
  intro ts
  induction ts with
  | nil =>
    intro idx ps _ q hq
    exact Or.inl ⟨hq, by simp⟩
  | cons t ts ih =>
    intro idx ps hnd q hq
    rw [setBarcodesLoop] at hq
    have hnd' : ((updateFirst (fun y => decide (y.id = t.id))
        (fun y => { y with barcode := mk idx t }) ps).map Piece.id).Nodup := by
      rw [map_key_updateFirst Piece.id (fun y => decide (y.id = t.id))
        (fun y => { y with barcode := mk idx t }) (fun x => rfl)]
      exact hnd
    rcases ih (idx + 1) _ hnd' q hq with ⟨hmem, hnot⟩ | hr
    · by_cases hid : q.id = t.id
      · rcases all_key_updateFirst_key Piece.id t.id _ ps hnd q hmem hid with ⟨x, _, _, rfl⟩
        exact Or.inr ⟨idx, t, rfl⟩
      · rcases mem_updateFirst hmem with hq' | ⟨x, _, hpx, rfl⟩
        · refine Or.inl ⟨hq', fun t' ht' => ?_⟩
          rcases List.mem_cons.mp ht' with rfl | ht'
          · exact fun he => hid he.symm
          · exact hnot t' ht'
        · exact absurd (of_decide_eq_true hpx) hid
    · exact Or.inr hr

/-! ## C1: the trip-lock gate -/

/-- C1 (amended): on a trip whose `locked_at` is set, expense update and
expense deletion from a non-owner actor fail with `Forbidden` and succeed
for an owner; expense creation carries no lock check at all and succeeds
for any role; and shipment assignment and unassignment (all three
endpoints) fail with `Forbidden` for every role, the owner included. -/
theorem locked_trip_gate (db : DB) (tenant tripId : Nat) (trip : Trip) (user : User)
    (rand : Nat → Fin 6 → Fin 10) (randHex : Nat → Fin 8 → Fin 16)
    (expenseId shipId : Nat) (ec : TripExpenseCreate) (eu : TripExpenseUpdate)
    (newId now : Nat)
    (hfind : db.trips.find? (fun t => decide (t.id = tripId ∧ t.tenant_id = tenant)) = some trip)
    (hlock : trip.locked_at.isSome = true) :
    (user.role ≠ "owner" →
      update_trip_expense db tenant tripId expenseId user eu =
        .error ⟨403, "Trip is locked. Only owner can edit expenses."⟩ ∧
      delete_trip_expense db tenant tripId expenseId user =
        .error ⟨403, "Trip is locked. Only owner can delete expenses."⟩) ∧
    (user.role = "owner" →
      (db.trip_expenses.find? (fun x => decide (x.id = expenseId ∧ x.trip_id = tripId))).isSome = true →
      (update_trip_expense db tenant tripId expenseId user eu).isOk = true ∧
      (delete_trip_expense db tenant tripId expenseId user).isOk = true) ∧
    (create_trip_expense db tenant tripId user ec newId now).isOk = true ∧
    assign_shipment_to_trip db tenant tripId shipId rand =
      .error ⟨403, "Cannot modify shipments on a locked trip"⟩ ∧
    unassign_shipment_from_trip db tenant tripId shipId rand =
      .error ⟨403, "Cannot modify shipments on a locked trip"⟩ ∧
    remove_parcel_from_trip db tenant tripId shipId user randHex =
      .error ⟨403, "Cannot modify closed trip"⟩ := by
  refine ⟨fun hrole => ⟨?_, ?_⟩, fun hrole hexp => ⟨?_, ?_⟩, ?_, ?_, ?_, ?_⟩
  · simp only [update_trip_expense, hfind]
    rw [if_pos ⟨hlock, hrole⟩]
  · simp only [delete_trip_expense, hfind]
    rw [if_pos ⟨hlock, hrole⟩]
  · simp only [update_trip_expense, hfind]
    rw [if_neg (fun hc => hc.2 hrole)]
    by_cases hne : eu.nonempty
    · rw [if_pos hne, if_neg (by simp [Option.isNone_iff_eq_none] at hexp ⊢; exact hexp)]
      rfl
    · rw [if_neg hne]
      rfl
  · simp only [delete_trip_expense, hfind]
    rw [if_neg (fun hc => hc.2 hrole),
      if_neg (by simp [Option.isNone_iff_eq_none] at hexp ⊢; exact hexp)]
    rfl
  · simp only [create_trip_expense, hfind]
    rfl
  · simp only [assign_shipment_to_trip, hfind]
    rw [if_pos hlock]
  · simp only [unassign_shipment_from_trip, hfind]
    rw [if_pos hlock]
  · simp only [remove_parcel_from_trip, hfind]
    rw [if_pos hlock]

/-- C1 (counterexample to the claim as stated): on the locked trip of
`dbLocked`, an expense-creation request by a manager succeeds instead of
failing with `Forbidden`, and a shipment-assignment request in an
owner-role session (the endpoint reads no user at all) fails with
`Forbidden` instead of succeeding. -/
theorem locked_trip_gate_cex :
    (create_trip_expense dbLocked 1 1 manager1 expReq 31 60).isOk = true ∧
    assign_shipment_to_trip dbLocked 1 1 10 (fun _ _ => 0) =
      .error ⟨403, "Cannot modify shipments on a locked trip"⟩ := by
  exact ⟨rfl, rfl⟩

/-- Witness for `locked_trip_gate` at the concrete locked store. -/
theorem locked_trip_gate_witness :
    update_trip_expense dbLocked 1 1 30 manager1 expUpd =
      .error ⟨403, "Trip is locked. Only owner can edit expenses."⟩ :=
  ((locked_trip_gate dbLocked 1 1 lockedTrip1 manager1 (fun _ _ => 0) (fun _ _ => 0)
    30 10 expReq expUpd 31 60 rfl rfl).1 (by decide)).1

/-! ## C2: closing an already-closed trip -/

/-- C2 (amended): on a trip whose `locked_at` is already set, the
dedicated close endpoint rejects an owner with `AlreadyClosed`
(400 "Trip is already closed") and any other role with `Forbidden`;
a status-changing update that sets status to `closed` is rejected with the
generic locked-trip `Forbidden` for non-owners, but for an owner it
completes as a silent no-op success — `update_trip` never returns
`AlreadyClosed`. -/
theorem already_closed_gate (db : DB) (tenant tripId : Nat) (trip : Trip) (user : User)
    (u : TripUpdate) (now : Nat)
    (hfind : db.trips.find? (fun t => decide (t.id = tripId ∧ t.tenant_id = tenant)) = some trip)
    (hlock : trip.locked_at.isSome = true) :
    (user.role = "owner" →
      close_trip db tenant tripId user now = .error ⟨400, "Trip is already closed"⟩) ∧
    (user.role ≠ "owner" →
      close_trip db tenant tripId user now = .error ⟨403, "Only owner can close trips"⟩) ∧
    (u.status = some .closed →
      (user.role ≠ "owner" →
        update_trip db tenant tripId u user now =
          .error ⟨403, "Trip is locked. Only owner can modify."⟩) ∧
      (user.role = "owner" → u.trip_number = none →
        (update_trip db tenant tripId u user now).isOk = true)) := by
  refine ⟨fun hrole => ?_, fun hrole => ?_, fun _ => ⟨fun hrole => ?_, fun hrole hn => ?_⟩⟩
  · simp only [close_trip, hfind]
    rw [if_neg (fun hc => hc hrole), if_pos hlock]
  · simp only [close_trip]
    rw [if_pos hrole]
  · simp only [update_trip, hfind]
    rw [if_pos ⟨hlock, hrole⟩]
  · simp only [update_trip, hfind]
    rw [if_neg (fun hc => hc.2 hrole), if_neg (by rw [hn]; exact Bool.false_ne_true)]
    rfl

/-- C2 (counterexample to the claim as stated): an owner's status update
setting the already-closed trip's status to `closed` again completes as a
silent no-op success (it returns the unchanged store and trip), instead of
returning `AlreadyClosed`. -/
theorem already_closed_gate_cex :
    update_trip dbLocked 1 1 updClose owner1 60 = .ok (dbLocked, some lockedTrip1) := by
  rfl

/-- Witness for `already_closed_gate` at the concrete locked store. -/
theorem already_closed_gate_witness :
    close_trip dbLocked 1 1 owner1 60 = .error ⟨400, "Trip is already closed"⟩ :=
  (already_closed_gate dbLocked 1 1 lockedTrip1 owner1 updClose 60 rfl rfl).1 rfl

/-! ## C9: trip deletion cascade -/

/-- C9: deleting an unlocked trip (or any trip as owner) resets every
shipment that was assigned to it to `trip_id = null` / `warehouse`,
deletes all of the trip's expenses (leaving other trips' expenses in
place), and leaves the pieces collection — in particular every piece
barcode — completely unchanged. -/
theorem delete_trip_cascade (db : DB) (tenant tripId : Nat) (trip : Trip) (user : User)
    (hfind : db.trips.find? (fun t => decide (t.id = tripId ∧ t.tenant_id = tenant)) = some trip)
    (hperm : trip.locked_at = none ∨ user.role = "owner")
    (hwf : ∀ s ∈ db.shipments, s.trip_id = some tripId → s.tenant_id = tenant) :
    ∃ db', delete_trip db tenant tripId user = .ok db' ∧
      (∀ s ∈ db.shipments, s.trip_id = some tripId →
        { s with trip_id := none, status := ShipmentStatus.warehouse } ∈ db'.shipments) ∧
      (∀ e ∈ db'.trip_expenses, e.trip_id ≠ tripId) ∧
      (∀ e ∈ db.trip_expenses, e.trip_id ≠ tripId → e ∈ db'.trip_expenses) ∧
      db'.pieces = db.pieces := by
  have hcond : ¬(trip.locked_at.isSome = true ∧ user.role ≠ "owner") := by
    rcases hperm with h | h
    · intro hc
      rw [h] at hc
      exact absurd hc.1 (by simp)
    · exact fun hc => hc.2 h
  have heq : delete_trip db tenant tripId user = .ok { db with
      shipments :=
        (db.shipments.map fun s =>
          if s.trip_id = some tripId ∧ s.tenant_id = tenant then
            { s with trip_id := none, status := .warehouse }
          else s)
      trip_expenses := db.trip_expenses.filter (fun e => decide (e.trip_id ≠ tripId))
      trips := deleteFirst (fun t => decide (t.id = tripId ∧ t.tenant_id = tenant)) db.trips } := by
    simp only [delete_trip, hfind]
    rw [if_neg hcond]
  refine ⟨_, heq, ?_, ?_, ?_, rfl⟩
  · intro s hs htrip
    have : (if s.trip_id = some tripId ∧ s.tenant_id = tenant then
        { s with trip_id := none, status := ShipmentStatus.warehouse } else s) =
        { s with trip_id := none, status := ShipmentStatus.warehouse } :=
      if_pos ⟨htrip, hwf s hs htrip⟩
    exact this ▸ List.mem_map_of_mem _ hs
  · intro e he
    exact of_decide_eq_true (List.mem_filter.mp he).2
  · intro e he hne
    exact List.mem_filter.mpr ⟨he, decide_eq_true hne⟩

/-- Witness for `delete_trip_cascade`: deleting trip 1 with its assigned
shipment. -/
theorem delete_trip_cascade_witness :
    ∃ db', delete_trip dbAssigned 1 1 manager1 = .ok db' ∧
      (∀ s ∈ dbAssigned.shipments, s.trip_id = some 1 →
        { s with trip_id := none, status := ShipmentStatus.warehouse } ∈ db'.shipments) ∧
      (∀ e ∈ db'.trip_expenses, e.trip_id ≠ 1) ∧
      (∀ e ∈ dbAssigned.trip_expenses, e.trip_id ≠ 1 → e ∈ db'.trip_expenses) ∧
      db'.pieces = dbAssigned.pieces :=
  delete_trip_cascade dbAssigned 1 1 trip1 manager1 rfl (Or.inl rfl) (by decide)

/-! ## C10: null-filtering and frame of trip/shipment updates -/

theorem shipmentUpdate_empty (su : ShipmentUpdate) (h : su.nonempty = false) :
    su.description = none ∧ su.destination = none ∧ su.total_pieces = none ∧
    su.total_weight = none ∧ su.total_cbm = none ∧ su.status = none ∧ su.trip_id = none := by
  have e : ∀ {β : Type} (o : Option β), o.isSome = false → o = none := by
    intro β o ho
    cases o
    · rfl
    · simp at ho
  simp only [ShipmentUpdate.nonempty, Bool.or_eq_false_iff] at h
  exact ⟨e _ h.1.1.1.1.1.1, e _ h.1.1.1.1.1.2, e _ h.1.1.1.1.2, e _ h.1.1.1.2,
    e _ h.1.1.2, e _ h.1.2, e _ h.2⟩

/-- C10: for both `update_trip` and `update_shipment`, every request field
that is absent or null keeps the prior stored value (no field can be
nulled through these endpoints), every non-null request field is stored
verbatim, identity/audit fields are untouched, and the only other fields
that can change are the status-derived timestamps `locked_at`,
`actual_departure` and `actual_arrival`, which follow exactly the
idempotent-once stamping rules. -/
theorem null_filter_frame (db : DB) (tenant tripId shipId : Nat) (trip : Trip)
    (s : Shipment) (u : TripUpdate) (su : ShipmentUpdate) (user : User) (now : Nat)
    (hfindT : db.trips.find? (fun t => decide (t.id = tripId ∧ t.tenant_id = tenant)) = some trip)
    (hpermT : trip.locked_at = none ∨ user.role = "owner")
    (huniq : ∀ tn, u.trip_number = some tn → tn ≠ trip.trip_number →
      ∀ t ∈ db.trips, ¬(t.tenant_id = tenant ∧ t.trip_number = tn ∧ t.id ≠ tripId))
    (hfindS : db.shipments.find? (fun x => decide (x.id = shipId ∧ x.tenant_id = tenant)) = some s) :
    (∃ db' t', update_trip db tenant tripId u user now = .ok (db', some t') ∧
      (u.trip_number = none → t'.trip_number = trip.trip_number) ∧
      (∀ v, u.trip_number = some v → t'.trip_number = v) ∧
      (u.route = none → t'.route = trip.route) ∧
      (∀ v, u.route = some v → t'.route = v) ∧
      (u.departure_date = none → t'.departure_date = trip.departure_date) ∧
      (∀ v, u.departure_date = some v → t'.departure_date = v) ∧
      (u.vehicle_id = none → t'.vehicle_id = trip.vehicle_id) ∧
      (∀ v, u.vehicle_id = some v → t'.vehicle_id = some v) ∧
      (u.driver_id = none → t'.driver_id = trip.driver_id) ∧
      (∀ v, u.driver_id = some v → t'.driver_id = some v) ∧
      (u.notes = none → t'.notes = trip.notes) ∧
      (∀ v, u.notes = some v → t'.notes = some v) ∧
      (u.status = none → t'.status = trip.status) ∧
      (∀ v, u.status = some v → t'.status = v) ∧
      t'.id = trip.id ∧ t'.tenant_id = trip.tenant_id ∧
      t'.created_by = trip.created_by ∧ t'.created_at = trip.created_at ∧
      t'.locked_at = (if u.status = some .closed ∧ trip.status ≠ .closed
        then some now else trip.locked_at) ∧
      t'.actual_departure = (if u.status = some .in_transit ∧ trip.status ≠ .in_transit ∧
          trip.actual_departure = none then some now else trip.actual_departure) ∧
      t'.actual_arrival = (if u.status = some .delivered ∧ trip.status ≠ .delivered ∧
          trip.actual_arrival = none then some now else trip.actual_arrival)) ∧
    (∃ db' s', update_shipment db tenant shipId su = .ok (db', some s') ∧
      (su.description = none → s'.description = s.description) ∧
      (∀ v, su.description = some v → s'.description = v) ∧
      (su.destination = none → s'.destination = s.destination) ∧
      (∀ v, su.destination = some v → s'.destination = v) ∧
      (su.total_pieces = none → s'.total_pieces = s.total_pieces) ∧
      (∀ v, su.total_pieces = some v → s'.total_pieces = v) ∧
      (su.total_weight = none → s'.total_weight = s.total_weight) ∧
      (∀ v, su.total_weight = some v → s'.total_weight = v) ∧
      (su.total_cbm = none → s'.total_cbm = s.total_cbm) ∧
      (∀ v, su.total_cbm = some v → s'.total_cbm = some v) ∧
      (su.status = none → s'.status = s.status) ∧
      (∀ v, su.status = some v → s'.status = v) ∧
      (su.trip_id = none → s'.trip_id = s.trip_id) ∧
      (∀ v, su.trip_id = some v → s'.trip_id = some v) ∧
      s'.id = s.id ∧ s'.tenant_id = s.tenant_id ∧ s'.client_id = s.client_id ∧
      s'.created_by = s.created_by ∧ s'.created_at = s.created_at) := by
  constructor
  · -- trip part
    have hcond : ¬(trip.locked_at.isSome = true ∧ user.role ≠ "owner") := by
      rcases hpermT with h | h
      · intro hc
        rw [h] at hc
        exact absurd hc.1 (by simp)
      · exact fun hc => hc.2 h
    have hguard : (match u.trip_number with
        | some tn => decide (tn ≠ trip.trip_number) &&
            (db.trips.any fun t => decide (t.tenant_id = tenant ∧ t.trip_number = tn ∧ t.id ≠ tripId))
        | none => false) = false := by
      cases hu : u.trip_number with
      | none => rfl
      | some tn =>
        show (decide (tn ≠ trip.trip_number) &&
          (db.trips.any fun t =>
            decide (t.tenant_id = tenant ∧ t.trip_number = tn ∧ t.id ≠ tripId))) = false
        by_cases hne : tn = trip.trip_number
        · simp [hne]
        · have hany : (db.trips.any fun t =>
              decide (t.tenant_id = tenant ∧ t.trip_number = tn ∧ t.id ≠ tripId)) = false := by
            rw [List.any_eq_false]
            intro t ht
            simp only [decide_eq_true_eq]
            exact huniq tn hu hne t ht
          rw [hany, Bool.and_false]
    have hq : (fun t => decide (t.id = tripId ∧ t.tenant_id = tenant))
        (applyTripUpdate u trip now trip) = true := by
      simpa [applyTripUpdate] using List.find?_some hfindT
    have hfind' := find?_updateFirst_self
      (fun t => decide (t.id = tripId ∧ t.tenant_id = tenant))
      (fun t => decide (t.id = tripId ∧ t.tenant_id = tenant))
      (applyTripUpdate u trip now) (fun _ h => h) db.trips trip hfindT hq
    refine ⟨{ db with trips :=
        (updateFirst (fun t => decide (t.id = tripId ∧ t.tenant_id = tenant))
          (applyTripUpdate u trip now) db.trips) },
      applyTripUpdate u trip now trip, ?_, ?_, ?_, ?_, ?_, ?_, ?_, ?_, ?_, ?_, ?_,
      ?_, ?_, ?_, ?_, rfl, rfl, rfl, rfl, rfl, rfl, rfl⟩
    · simp only [update_trip, hfindT]
      rw [if_neg hcond, if_neg (by rw [hguard]; exact Bool.false_ne_true)]
      rw [hfind']
    all_goals
      first
      | (intro h; simp [applyTripUpdate, h])
      | (intro v h; simp [applyTripUpdate, h])
  · -- shipment part
    by_cases hne : su.nonempty = true
    · have hq : (fun x => decide (x.id = shipId ∧ x.tenant_id = tenant))
          (applyShipmentUpdate su s) = true := by
        simpa [applyShipmentUpdate] using List.find?_some hfindS
      have hfind' := find?_updateFirst_self
        (fun x => decide (x.id = shipId ∧ x.tenant_id = tenant))
        (fun x => decide (x.id = shipId ∧ x.tenant_id = tenant))
        (applyShipmentUpdate su) (fun _ h => h) db.shipments s hfindS hq
      refine ⟨{ db with shipments :=
          (updateFirst (fun x => decide (x.id = shipId ∧ x.tenant_id = tenant))
            (applyShipmentUpdate su) db.shipments) },
        applyShipmentUpdate su s, ?_, ?_, ?_, ?_, ?_, ?_, ?_, ?_, ?_, ?_, ?_,
        ?_, ?_, ?_, ?_, rfl, rfl, rfl, rfl, rfl⟩
      · simp only [update_shipment]
        rw [if_pos hne, if_neg (by rw [hfindS]; simp)]
        rw [hfind']
      all_goals
        first
        | (intro h; simp [applyShipmentUpdate, h])
        | (intro v h; simp [applyShipmentUpdate, h])
    · obtain ⟨h1, h2, h3, h4, h5, h6, h7⟩ :=
        shipmentUpdate_empty su (Bool.not_eq_true _ ▸ Bool.of_not_eq_true hne)
      refine ⟨db, s, ?_, fun _ => rfl, ?_, fun _ => rfl, ?_, fun _ => rfl, ?_,
        fun _ => rfl, ?_, fun _ => rfl, ?_, fun _ => rfl, ?_, fun _ => rfl, ?_,
        rfl, rfl, rfl, rfl, rfl⟩
      · simp only [update_shipment]
        rw [if_neg hne, hfindS]
      · intro v hv; rw [h1] at hv; cases hv
      · intro v hv; rw [h2] at hv; cases hv
      · intro v hv; rw [h3] at hv; cases hv
      · intro v hv; rw [h4] at hv; cases hv
      · intro v hv; rw [h5] at hv; cases hv
      · intro v hv; rw [h6] at hv; cases hv
      · intro v hv; rw [h7] at hv; cases hv

/-- Witness for `null_filter_frame` at the concrete open store, with a
status-changing trip update and a destination-only shipment update. -/
theorem null_filter_frame_witness :
    (∃ db' t', update_trip dbOpen 1 1 updNotes owner1 60 = .ok (db', some t') ∧
      (updNotes.trip_number = none → t'.trip_number = trip1.trip_number) ∧
      (∀ v, updNotes.trip_number = some v → t'.trip_number = v) ∧
      (updNotes.route = none → t'.route = trip1.route) ∧
      (∀ v, updNotes.route = some v → t'.route = v) ∧
      (updNotes.departure_date = none → t'.departure_date = trip1.departure_date) ∧
      (∀ v, updNotes.departure_date = some v → t'.departure_date = v) ∧
      (updNotes.vehicle_id = none → t'.vehicle_id = trip1.vehicle_id) ∧
      (∀ v, updNotes.vehicle_id = some v → t'.vehicle_id = some v) ∧
      (updNotes.driver_id = none → t'.driver_id = trip1.driver_id) ∧
      (∀ v, updNotes.driver_id = some v → t'.driver_id = some v) ∧
      (updNotes.notes = none → t'.notes = trip1.notes) ∧
      (∀ v, updNotes.notes = some v → t'.notes = some v) ∧
      (updNotes.status = none → t'.status = trip1.status) ∧
      (∀ v, updNotes.status = some v → t'.status = v) ∧
      t'.id = trip1.id ∧ t'.tenant_id = trip1.tenant_id ∧
      t'.created_by = trip1.created_by ∧ t'.created_at = trip1.created_at ∧
      t'.locked_at = (if updNotes.status = some .closed ∧ trip1.status ≠ .closed
        then some 60 else trip1.locked_at) ∧
      t'.actual_departure = (if updNotes.status = some .in_transit ∧ trip1.status ≠ .in_transit ∧
          trip1.actual_departure = none then some 60 else trip1.actual_departure) ∧
      t'.actual_arrival = (if updNotes.status = some .delivered ∧ trip1.status ≠ .delivered ∧
          trip1.actual_arrival = none then some 60 else trip1.actual_arrival)) ∧
    (∃ db' s', update_shipment dbOpen 1 10 shipUpd = .ok (db', some s') ∧
      (shipUpd.description = none → s'.description = ship1.description) ∧
      (∀ v, shipUpd.description = some v → s'.description = v) ∧
      (shipUpd.destination = none → s'.destination = ship1.destination) ∧
      (∀ v, shipUpd.destination = some v → s'.destination = v) ∧
      (shipUpd.total_pieces = none → s'.total_pieces = ship1.total_pieces) ∧
      (∀ v, shipUpd.total_pieces = some v → s'.total_pieces = v) ∧
      (shipUpd.total_weight = none → s'.total_weight = ship1.total_weight) ∧
      (∀ v, shipUpd.total_weight = some v → s'.total_weight = v) ∧
      (shipUpd.total_cbm = none → s'.total_cbm = ship1.total_cbm) ∧
      (∀ v, shipUpd.total_cbm = some v → s'.total_cbm = some v) ∧
      (shipUpd.status = none → s'.status = ship1.status) ∧
      (∀ v, shipUpd.status = some v → s'.status = v) ∧
      (shipUpd.trip_id = none → s'.trip_id = ship1.trip_id) ∧
      (∀ v, shipUpd.trip_id = some v → s'.trip_id = some v) ∧
      s'.id = ship1.id ∧ s'.tenant_id = ship1.tenant_id ∧ s'.client_id = ship1.client_id ∧
      s'.created_by = ship1.created_by ∧ s'.created_at = ship1.created_at) :=
  null_filter_frame dbOpen 1 1 10 trip1 ship1 updNotes shipUpd owner1 60 rfl (Or.inl rfl)
    (by intro tn htn; cases htn) rfl

/-! ## C4: invoice total invariant -/

/-- C4: after a line-item addition, a line-item deletion, or an invoice
field update, the stored invoice satisfies `total = subtotal +
adjustments`, and after a line-item mutation the stored subtotal equals
the sum of the remaining line-item amounts of that invoice. -/
theorem invoice_total_invariant (db : DB) (tenant invId : Nat) (inv : Invoice)
    (hnd : (db.invoices.map Invoice.id).Nodup)
    (hinv : inv ∈ db.invoices) (hid : inv.id = invId) (hten : inv.tenant_id = tenant) :
    (∀ it newId, inv.status = .draft →
      ∃ db' item, add_invoice_item db tenant invId it newId = .ok (db', item) ∧
        ∀ j ∈ db'.invoices, j.id = invId →
          j.total = j.subtotal + j.adjustments ∧
          j.subtotal = ((db'.line_items.filter fun i =>
            decide (i.invoice_id = invId)).map LineItem.amount).sum) ∧
    (∀ itemId, inv.status = .draft →
      (db.line_items.find? fun i => decide (i.id = itemId ∧ i.invoice_id = invId)).isSome = true →
      ∃ db', delete_invoice_item db tenant invId itemId = .ok db' ∧
        ∀ j ∈ db'.invoices, j.id = invId →
          j.total = j.subtotal + j.adjustments ∧
          j.subtotal = ((db'.line_items.filter fun i =>
            decide (i.invoice_id = invId)).map LineItem.amount).sum) ∧
    (∀ u user now,
      ∃ db' j', update_invoice db tenant invId user u now = .ok (db', some j') ∧
        j'.total = j'.subtotal + j'.adjustments ∧
        ∀ j ∈ db'.invoices, j.id = invId → j.total = j.subtotal + j.adjustments) := by
  have hfind : db.invoices.find? (fun i => decide (i.id = invId ∧ i.tenant_id = tenant)) =
      some inv :=
    find?_of_unique_key Invoice.id invId _ (fun y h => (of_decide_eq_true h).1)
      db.invoices hnd inv hinv hid (decide_eq_true ⟨hid, hten⟩)
  refine ⟨?_, ?_, ?_⟩
  · -- add_invoice_item
    intro it newId hdraft
    simp only [add_invoice_item, hfind]
    rw [if_neg (fun hc => hc hdraft)]
    refine ⟨_, _, rfl, ?_⟩
    intro j hj hjid
    obtain ⟨x, hx, hkx, rfl⟩ := all_key_updateFirst_key Invoice.id invId _ db.invoices hnd j hj hjid
    have hxe : x = inv :=
      eq_of_key_nodup Invoice.id db.invoices hnd x inv hx hinv (by rw [hkx, hid])
    exact ⟨by rw [hxe], rfl⟩
  · -- delete_invoice_item
    intro itemId hdraft hitem
    simp only [delete_invoice_item, hfind]
    rw [if_neg (fun hc => hc hdraft),
      if_neg (by simp only [Option.isNone_iff_eq_none]; intro hc; rw [hc] at hitem; cases hitem)]
    refine ⟨_, rfl, ?_⟩
    intro j hj hjid
    obtain ⟨x, hx, hkx, rfl⟩ := all_key_updateFirst_key Invoice.id invId _ db.invoices hnd j hj hjid
    have hxe : x = inv :=
      eq_of_key_nodup Invoice.id db.invoices hnd x inv hx hinv (by rw [hkx, hid])
    exact ⟨by rw [hxe], rfl⟩
  · -- update_invoice
    intro u user now
    have hq : (fun (i : Invoice) => decide (i.id = invId ∧ i.tenant_id = tenant))
        ({ inv with
          status := u.status.getD inv.status
          currency := u.currency.getD inv.currency
          subtotal := u.subtotal.getD inv.subtotal
          adjustments := u.adjustments.getD inv.adjustments
          total := u.subtotal.getD inv.subtotal + u.adjustments.getD inv.adjustments
          sent_at := if u.status = some .sent ∧ inv.status = .draft then some now else inv.sent_at
          sent_by := if u.status = some .sent ∧ inv.status = .draft then some user.id else inv.sent_by
          paid_at := if u.status = some .paid ∧ inv.status ≠ .paid then some now else inv.paid_at }) =
        true := by
      simpa using List.find?_some hfind
    have hfind' := find?_updateFirst_self (α := Invoice)
      (fun i => decide (i.id = invId ∧ i.tenant_id = tenant))
      (fun i => decide (i.id = invId ∧ i.tenant_id = tenant))
      (fun j => { j with
        status := u.status.getD j.status
        currency := u.currency.getD j.currency
        subtotal := u.subtotal.getD inv.subtotal
        adjustments := u.adjustments.getD inv.adjustments
        total := u.subtotal.getD inv.subtotal + u.adjustments.getD inv.adjustments
        sent_at := if u.status = some .sent ∧ inv.status = .draft then some now else j.sent_at
        sent_by := if u.status = some .sent ∧ inv.status = .draft then some user.id else j.sent_by
        paid_at := if u.status = some .paid ∧ inv.status ≠ .paid then some now else j.paid_at })
      (fun _ h => h) db.invoices inv hfind hq
    simp only [update_invoice, hfind]
    rw [hfind']
    refine ⟨_, _, rfl, rfl, ?_⟩
    intro j hj hjid
    have := all_key_updateFirst Invoice.id invId
      (fun i => decide (i.id = invId ∧ i.tenant_id = tenant)) _ db.invoices hnd inv hfind hid
      j hj hjid
    rw [this]

/-- Witness for `invoice_total_invariant`: adding a weighted item to the
draft invoice with nonzero adjustments. -/
theorem invoice_total_invariant_witness :
    ∃ db' item, add_invoice_item dbDraft 1 41 itemReq 60 = .ok (db', item) ∧
      ∀ j ∈ db'.invoices, j.id = 41 →
        j.total = j.subtotal + j.adjustments ∧
        j.subtotal = ((db'.line_items.filter fun i =>
          decide (i.invoice_id = 41)).map LineItem.amount).sum :=
  (invoice_total_invariant dbDraft 1 41 invDraft (by decide) (by decide) rfl rfl).1
    itemReq 60 rfl

/-! ## C3: payment reconciliation -/

theorem sum_filter_append_single (q : Payment → Bool) (l : List Payment) (pay : Payment)
    (hq : q pay = true) :
    (((l ++ [pay]).filter q).map Payment.amount).sum =
      ((l.filter q).map Payment.amount).sum + pay.amount := by
  rw [List.filter_append, List.map_append, List.sum_append]
  simp [List.filter, hq]

/-- C3: recording a payment against an invoice whose re-summed ledger then
reaches `invoice.total` marks the stored invoice `paid` and stamps
`paid_at`; deleting a payment of a `paid` invoice whose re-summed
remaining ledger falls below `total` reverts the stored status to
`overdue` when the due date has passed (else `sent`) and clears
`paid_at`. -/
theorem payment_reconciliation (db : DB) (tenant i : Nat) (inv : Invoice) (user : User)
    (now today : Nat)
    (hnd : (db.invoices.map Invoice.id).Nodup)
    (hinv : inv ∈ db.invoices) (hid : inv.id = i) (hten : inv.tenant_id = tenant) :
    (∀ pc newId, pc.invoice_id = some i →
      (db.clients.find? (fun c => decide (c.id = pc.client_id ∧ c.tenant_id = tenant))).isSome = true →
      inv.total ≤ ((db.payments.filter fun p =>
        decide (p.invoice_id = some i)).map Payment.amount).sum + pc.amount →
      ∃ db' pay, create_payment db tenant user pc newId now = .ok (db', pay) ∧
        ∀ j ∈ db'.invoices, j.id = i → j.status = .paid ∧ j.paid_at = some now) ∧
    (∀ paymentId payment, (user.role = "owner" ∨ user.role = "finance") →
      db.payments.find? (fun p => decide (p.id = paymentId ∧ p.tenant_id = tenant)) = some payment →
      payment.invoice_id = some i →
      inv.status = .paid →
      (((deleteFirst (fun p => decide (p.id = paymentId ∧ p.tenant_id = tenant))
          db.payments).filter fun p => decide (p.invoice_id = some i)).map Payment.amount).sum
        < inv.total →
      ∃ db', delete_payment db tenant paymentId user today = .ok db' ∧
        ∀ j ∈ db'.invoices, j.id = i →
          j.status = (if inv.due_date < today then InvoiceStatus.overdue else .sent) ∧
          j.paid_at = none) := by
  have hfindInvT : db.invoices.find? (fun j => decide (j.id = i ∧ j.tenant_id = tenant)) =
      some inv :=
    find?_of_unique_key Invoice.id i _ (fun y h => (of_decide_eq_true h).1)
      db.invoices hnd inv hinv hid (decide_eq_true ⟨hid, hten⟩)
  have hfindInv : db.invoices.find? (fun j => decide (j.id = i)) = some inv :=
    find?_of_unique_key Invoice.id i _ (fun y h => of_decide_eq_true h)
      db.invoices hnd inv hinv hid (decide_eq_true hid)
  constructor
  · -- create_payment
    intro pc newId hpcinv hclient hsum
    obtain ⟨c, hc⟩ := Option.isSome_iff_exists.mp hclient
    have hle : inv.total ≤ (((db.payments ++
        [({ id := newId, tenant_id := tenant, client_id := pc.client_id,
            invoice_id := some i, amount := pc.amount,
            payment_date := pc.payment_date, created_by := user.id } : Payment)]).filter fun p =>
          decide (p.invoice_id = some i)).map Payment.amount).sum := by
      rw [sum_filter_append_single _ _ _ (by simp)]
      exact hsum
    have heq : create_payment db tenant user pc newId now = .ok ({ db with
        invoices := updateFirst (fun j => decide (j.id = i))
          (fun j => { j with status := .paid, paid_at := some now }) db.invoices
        payments := db.payments ++
          [{ id := newId, tenant_id := tenant, client_id := pc.client_id,
              invoice_id := some i, amount := pc.amount,
              payment_date := pc.payment_date, created_by := user.id }] },
        { id := newId, tenant_id := tenant, client_id := pc.client_id,
          invoice_id := some i, amount := pc.amount,
          payment_date := pc.payment_date, created_by := user.id }) := by
      simp only [create_payment, hpcinv, hc, hfindInvT, hfindInv, Option.isNone_some,
        Bool.false_eq_true, if_false]
      split
      · rfl
      · next h => exact absurd hle h
    refine ⟨_, _, heq, ?_⟩
    intro j hj hjid
    obtain ⟨x, hx, hkx, rfl⟩ :=
      all_key_updateFirst_key Invoice.id i _ db.invoices hnd j hj hjid
    exact ⟨rfl, rfl⟩
  · -- delete_payment
    intro paymentId payment hrole hfindPay hpinv hpaid hlt
    have heq : delete_payment db tenant paymentId user today = .ok { db with
        invoices := updateFirst (fun j => decide (j.id = i))
          (fun j => { j with
            status := if inv.due_date < today then InvoiceStatus.overdue else .sent
            paid_at := none }) db.invoices
        payments := deleteFirst (fun p => decide (p.id = paymentId ∧ p.tenant_id = tenant))
          db.payments } := by
      simp only [delete_payment, hfindPay, hpinv, hfindInv]
      rw [if_neg (fun hc => hc hrole), if_pos hpaid]
      split
      · rfl
      · next h => exact absurd hlt h
    refine ⟨_, heq, ?_⟩
    intro j hj hjid
    obtain ⟨x, hx, hkx, rfl⟩ :=
      all_key_updateFirst_key Invoice.id i _ db.invoices hnd j hj hjid
    exact ⟨rfl, rfl⟩

/-- Witness for `payment_reconciliation`: fully paying the sent invoice
marks it paid; deleting the covering payment of the paid, past-due
invoice reverts it to overdue. -/
theorem payment_reconciliation_witness :
    (∃ db' pay, create_payment dbSent 1 owner1 payReq 51 60 = .ok (db', pay) ∧
      ∀ j ∈ db'.invoices, j.id = 40 → j.status = .paid ∧ j.paid_at = some 60) ∧
    (∃ db', delete_payment dbPaid 1 50 owner1 20 = .ok db' ∧
      ∀ j ∈ db'.invoices, j.id = 40 →
        j.status = (if invPaid.due_date < 20 then InvoiceStatus.overdue else .sent) ∧
        j.paid_at = none) :=
  ⟨(payment_reconciliation dbSent 1 40 invSent owner1 60 20 (by decide) (by decide) rfl rfl).1
      payReq 51 rfl (by decide) (by norm_num [dbSent, dbOpen, invSent, payReq]),
    (payment_reconciliation dbPaid 1 40 invPaid owner1 60 20 (by decide) (by decide) rfl rfl).2
      50 pay1 (Or.inl rfl) (by decide) rfl rfl
      (by norm_num [dbPaid, dbOpen, invPaid, invSent, pay1, deleteFirst])⟩

/-! ## C6: lazy overdue flip -/

theorem overdueLoop_out (today : Nat) :
    ∀ (sel : List Invoice) (db : DB) (inv : Invoice), inv ∈ sel →
      inv.status ≠ .paid → inv.status ≠ .overdue → inv.due_date < today →
      { inv with status := InvoiceStatus.overdue } ∈ (overdueLoop today sel db).2 := by
  intro sel
  induction sel with
  | nil => intro db inv h; cases h
  | cons a rest ih =>
    intro db inv hmem h1 h2 h3
    simp only [overdueLoop]
    rcases List.mem_cons.mp hmem with rfl | hmem'
    · rw [if_pos ⟨h1, h2, h3⟩]
      exact List.mem_cons_self _ _
    · by_cases hc : a.status ≠ .paid ∧ a.status ≠ .overdue ∧ a.due_date < today
      · rw [if_pos hc]
        exact List.mem_cons_of_mem _ (ih _ inv hmem' h1 h2 h3)
      · rw [if_neg hc]
        exact List.mem_cons_of_mem _ (ih _ inv hmem' h1 h2 h3)

theorem overdueLoop_pres (today k : Nat) :
    ∀ (sel : List Invoice) (db : DB),
      (∀ j ∈ db.invoices, j.id = k → j.status = .overdue) →
      ∀ j ∈ (overdueLoop today sel db).1.invoices, j.id = k → j.status = .overdue := by
  intro sel
  induction sel with
  | nil => intro db h; exact h
  | cons a rest ih =>
    intro db h
    simp only [overdueLoop]
    by_cases hc : a.status ≠ .paid ∧ a.status ≠ .overdue ∧ a.due_date < today
    · rw [if_pos hc]
      refine ih _ ?_
      intro j hj hid
      rcases mem_updateFirst hj with hj' | ⟨x, _, _, rfl⟩
      · exact h j hj' hid
      · rfl
    · rw [if_neg hc]
      exact ih _ h

theorem overdueLoop_hits (today k : Nat) :
    ∀ (sel : List Invoice) (db : DB) (inv : Invoice),
      (db.invoices.map Invoice.id).Nodup → inv ∈ sel → inv.id = k →
      inv.status ≠ .paid → inv.status ≠ .overdue → inv.due_date < today →
      ∀ j ∈ (overdueLoop today sel db).1.invoices, j.id = k → j.status = .overdue := by
  intro sel
  induction sel with
  | nil => intro db inv _ h; cases h
  | cons a rest ih =>
    intro db inv hnd hmem hk h1 h2 h3
    simp only [overdueLoop]
    rcases List.mem_cons.mp hmem with rfl | hmem'
    · rw [if_pos ⟨h1, h2, h3⟩]
      refine overdueLoop_pres today k rest _ ?_
      intro j hj hid
      obtain ⟨x, _, _, rfl⟩ :=
        all_key_updateFirst_key Invoice.id inv.id _ db.invoices hnd j hj (by rw [hid, hk])
      rfl
    · by_cases hc : a.status ≠ .paid ∧ a.status ≠ .overdue ∧ a.due_date < today
      · rw [if_pos hc]
        refine ih _ inv ?_ hmem' hk h1 h2 h3
        rw [map_key_updateFirst Invoice.id (fun j => decide (j.id = a.id))
          (fun j => { j with status := InvoiceStatus.overdue }) (fun x => rfl)]
        exact hnd
      · rw [if_neg hc]
        exact ih _ inv hnd hmem' hk h1 h2 h3

/-- C6: an invoice that is neither `paid` nor `overdue` and whose due date
has passed is flipped to stored status `overdue` by the next
single-invoice read and by the next (unfiltered) invoice list operation,
and both report the status as `overdue`. -/
theorem overdue_lazy_flip (db : DB) (tenant invId today : Nat) (inv : Invoice)
    (hnd : (db.invoices.map Invoice.id).Nodup)
    (hfind : db.invoices.find? (fun x => decide (x.id = invId ∧ x.tenant_id = tenant)) = some inv)
    (h1 : inv.status ≠ .paid) (h2 : inv.status ≠ .overdue) (h3 : inv.due_date < today) :
    (∃ db' rep tp bd, get_invoice db tenant invId today = .ok (db', rep, tp, bd) ∧
      rep.status = .overdue ∧
      ∀ j ∈ db'.invoices, j.id = invId → j.status = .overdue) ∧
    (∃ db'' out, list_invoices db tenant none none today = (db'', out) ∧
      { inv with status := InvoiceStatus.overdue } ∈ out ∧
      ∀ j ∈ db''.invoices, j.id = invId → j.status = .overdue) := by
  have hmem := List.mem_of_find?_eq_some hfind
  have hprops : inv.id = invId ∧ inv.tenant_id = tenant := by
    simpa using List.find?_some hfind
  constructor
  · simp only [get_invoice, hfind]
    rw [if_pos ⟨h1, h2, h3⟩]
    refine ⟨_, _, _, _, rfl, rfl, ?_⟩
    intro j hj hid
    obtain ⟨x, _, _, rfl⟩ := all_key_updateFirst_key Invoice.id invId _ db.invoices hnd j hj hid
    rfl
  · have hsel : inv ∈ db.invoices.filter (fun i =>
        decide (i.tenant_id = tenant) && true && true) :=
      List.mem_filter.mpr ⟨hmem, by simp [hprops.2]⟩
    refine ⟨_, _, rfl, ?_, ?_⟩
    · exact overdueLoop_out today _ db inv hsel h1 h2 h3
    · intro j hj hid
      exact overdueLoop_hits today invId _ db inv hnd hsel hprops.1 h1 h2 h3 j hj hid

/-- Witness for `overdue_lazy_flip`: the sent invoice with due date 10
read at day 20. -/
theorem overdue_lazy_flip_witness :
    (∃ db' rep tp bd, get_invoice dbSent 1 40 20 = .ok (db', rep, tp, bd) ∧
      rep.status = .overdue ∧
      ∀ j ∈ db'.invoices, j.id = 40 → j.status = .overdue) ∧
    (∃ db'' out, list_invoices dbSent 1 none none 20 = (db'', out) ∧
      { invSent with status := InvoiceStatus.overdue } ∈ out ∧
      ∀ j ∈ db''.invoices, j.id = 40 → j.status = .overdue) :=
  overdue_lazy_flip dbSent 1 40 20 invSent (by decide) rfl (by decide) (by decide) (by decide)

/-! ## C5 and C8: invoice generation -/

theorem existsInvoiceAll_mono (invs L : List Invoice) (tenant cid : Nat) (ids : List Nat)
    (h : existsInvoiceAll invs tenant cid ids = true) :
    existsInvoiceAll (invs ++ L) tenant cid ids = true := by
  unfold existsInvoiceAll at h ⊢
  rw [List.any_append, h]
  rfl

theorem existsInvoiceAll_of_mem (invs : List Invoice) (inv : Invoice) (hmem : inv ∈ invs)
    (tenant cid : Nat) (ids : List Nat)
    (ht : inv.tenant_id = tenant) (hc : inv.client_id = cid)
    (hids : ∀ x ∈ ids, inv.shipment_ids.contains x = true) :
    existsInvoiceAll invs tenant cid ids = true := by
  unfold existsInvoiceAll
  rw [List.any_eq_true]
  refine ⟨inv, hmem, ?_⟩
  rw [Bool.and_eq_true, List.all_eq_true]
  exact ⟨decide_eq_true ⟨ht, hc⟩, hids⟩

theorem genInvoicesLoop_frame (tenant tripId year now : Nat) (user : User)
    (newInvId : Nat → Nat) (parcels : List Shipment) :
    ∀ (cids : List Nat) (db : DB) (k : Nat),
      (genInvoicesLoop tenant tripId year now user newInvId parcels cids db k).1.trips
          = db.trips ∧
      (genInvoicesLoop tenant tripId year now user newInvId parcels cids db k).1.shipments
          = db.shipments ∧
      ∃ L, (genInvoicesLoop tenant tripId year now user newInvId parcels cids db k).1.invoices
          = db.invoices ++ L := by
  intro cids
  induction cids with
  | nil => intro db k; exact ⟨rfl, rfl, [], (List.append_nil _).symm⟩
  | cons cid rest ih =>
    intro db k
    simp only [genInvoicesLoop]
    by_cases hg : existsInvoiceAll db.invoices tenant cid
        ((parcels.filter fun s => decide (s.client_id = some cid)).map fun s => s.id) = true
    · rw [if_pos hg]
      exact ih db k
    · rw [if_neg hg]
      obtain ⟨h1, h2, L, hL⟩ := ih
        { db with invoices := db.invoices ++
            [mkTripInvoice tenant tripId year now user newInvId parcels cid db k] } (k + 1)
      refine ⟨h1, h2,
        mkTripInvoice tenant tripId year now user newInvId parcels cid db k :: L, ?_⟩
      show (genInvoicesLoop tenant tripId year now user newInvId parcels rest
        { db with invoices := db.invoices ++
            [mkTripInvoice tenant tripId year now user newInvId parcels cid db k] }
        (k + 1)).1.invoices = _
      rw [hL]
      show (db.invoices ++ [_]) ++ L = _
      rw [List.append_assoc]
      rfl

theorem genInvoicesLoop_guards (tenant tripId year now : Nat) (user : User)
    (newInvId : Nat → Nat) (parcels : List Shipment) :
    ∀ (cids : List Nat) (db : DB) (k : Nat), ∀ cid ∈ cids,
      existsInvoiceAll
        (genInvoicesLoop tenant tripId year now user newInvId parcels cids db k).1.invoices
        tenant cid ((parcels.filter fun s => decide (s.client_id = some cid)).map fun s => s.id)
        = true := by
  intro cids
  induction cids with
  | nil => intro db k cid h; cases h
  | cons c rest ih =>
    intro db k cid hmem
    simp only [genInvoicesLoop]
    by_cases hg : existsInvoiceAll db.invoices tenant c
        ((parcels.filter fun s => decide (s.client_id = some c)).map fun s => s.id) = true
    · rw [if_pos hg]
      rcases List.mem_cons.mp hmem with rfl | hmem'
      · obtain ⟨_, _, L, hL⟩ := genInvoicesLoop_frame tenant tripId year now user newInvId
          parcels rest db k
        rw [hL]
        exact existsInvoiceAll_mono _ _ _ _ _ hg
      · exact ih db k cid hmem'
    · rw [if_neg hg]
      rcases List.mem_cons.mp hmem with rfl | hmem'
      · obtain ⟨_, _, L, hL⟩ := genInvoicesLoop_frame tenant tripId year now user newInvId
          parcels rest
          { db with invoices := db.invoices ++
              [mkTripInvoice tenant tripId year now user newInvId parcels cid db k] } (k + 1)
        show existsInvoiceAll (genInvoicesLoop tenant tripId year now user newInvId parcels rest
          { db with invoices := db.invoices ++
              [mkTripInvoice tenant tripId year now user newInvId parcels cid db k] }
          (k + 1)).1.invoices _ _ _ = true
        rw [hL]
        show existsInvoiceAll ((db.invoices ++ [_]) ++ L) _ _ _ = true
        apply existsInvoiceAll_mono
        apply existsInvoiceAll_of_mem _
          (mkTripInvoice tenant tripId year now user newInvId parcels cid db k)
          (List.mem_append_right _ (List.mem_singleton.mpr rfl)) _ _ _ rfl rfl
        intro x hx
        exact List.elem_iff.mpr hx
      · exact ih { db with invoices := db.invoices ++
            [mkTripInvoice tenant tripId year now user newInvId parcels c db k] }
          (k + 1) cid hmem'

theorem genInvoicesLoop_all_skip (tenant tripId year now : Nat) (user : User)
    (newInvId : Nat → Nat) (parcels : List Shipment) :
    ∀ (cids : List Nat) (db : DB) (k : Nat),
      (∀ cid ∈ cids, existsInvoiceAll db.invoices tenant cid
        ((parcels.filter fun s => decide (s.client_id = some cid)).map fun s => s.id) = true) →
      genInvoicesLoop tenant tripId year now user newInvId parcels cids db k = (db, 0) := by
  intro cids
  induction cids with
  | nil => intro db k _; rfl
  | cons c rest ih =>
    intro db k h
    simp only [genInvoicesLoop]
    rw [if_pos (h c (List.mem_cons_self c rest))]
    exact ih db k (fun cid hm => h cid (List.mem_cons_of_mem _ hm))

/-- C5: a second run of `generate_trip_invoices` on the same trip with the
shipment set unchanged (the first run never modifies shipments) creates
zero new invoices and leaves the store unchanged: every client group is
skipped because the invoice created (or found) by the first run still
matches the `$all` guard. -/
theorem generate_invoices_idempotent (db : DB) (tenant tripId : Nat)
    (user user' : User) (year year' now now' : Nat) (newInvId newInvId' : Nat → Nat)
    (db1 : DB) (n1 : Nat)
    (h1 : generate_trip_invoices db tenant tripId user year now newInvId = .ok (db1, n1)) :
    generate_trip_invoices db1 tenant tripId user' year' now' newInvId' = .ok (db1, 0) := by
  rcases hf : db.trips.find? (fun t => decide (t.id = tripId ∧ t.tenant_id = tenant))
    with _ | trip
  · simp only [generate_trip_invoices, hf] at h1
    exact Except.noConfusion h1
  · simp only [generate_trip_invoices, hf] at h1
    rw [Except.ok.injEq] at h1
    have hdb1 := congrArg Prod.fst h1
    dsimp only at hdb1
    obtain ⟨htr, hsh, _⟩ := genInvoicesLoop_frame tenant tripId year now user newInvId
      (db.shipments.filter fun s => decide (s.trip_id = some tripId ∧ s.tenant_id = tenant))
      (dedupFirst ((db.shipments.filter fun s =>
        decide (s.trip_id = some tripId ∧ s.tenant_id = tenant)).filterMap fun s => s.client_id))
      db 0
    have hf2 : db1.trips.find? (fun t => decide (t.id = tripId ∧ t.tenant_id = tenant))
        = some trip := by
      rw [← hdb1, htr]
      exact hf
    have hsh2 : db1.shipments = db.shipments := by
      rw [← hdb1, hsh]
    simp only [generate_trip_invoices, hf2, hsh2]
    rw [genInvoicesLoop_all_skip]
    intro cid hmem
    have := genInvoicesLoop_guards tenant tripId year now user newInvId
      (db.shipments.filter fun s => decide (s.trip_id = some tripId ∧ s.tenant_id = tenant))
      (dedupFirst ((db.shipments.filter fun s =>
        decide (s.trip_id = some tripId ∧ s.tenant_id = tenant)).filterMap fun s => s.client_id))
      db 0 cid hmem
    rw [hdb1] at this
    exact this

/-- Witness for `generate_invoices_idempotent`: generating twice on the
trip with one assigned shipment. -/
theorem generate_invoices_idempotent_witness :
    generate_trip_invoices genA 1 1 manager1 2026 91 (fun k => 300 + k) = .ok (genA, 0) :=
  generate_invoices_idempotent dbAssigned 1 1 owner1 manager1 2025 2026 90 91
    (fun k => 200 + k) (fun k => 300 + k) genA 1 rfl

theorem genInvoicesLoop_numbering (tenant tripId year now : Nat) (user : User)
    (newInvId : Nat → Nat) (parcels : List Shipment) :
    ∀ (cids : List Nat) (db : DB) (k : Nat),
      ∃ L, (genInvoicesLoop tenant tripId year now user newInvId parcels cids db k).1.invoices
          = db.invoices ++ L ∧
        (genInvoicesLoop tenant tripId year now user newInvId parcels cids db k).2 = L.length ∧
        ∀ idx, (hidx : idx < L.length) →
          (L.get ⟨idx, hidx⟩).invoice_number =
            "INV-" ++ toString year ++ "-" ++
              padNum 4 ((db.invoices.countP fun j => decide (j.tenant_id = tenant)) + idx + 1) ∧
          (L.get ⟨idx, hidx⟩).tenant_id = tenant := by
  intro cids
  induction cids with
  | nil =>
    intro db k
    exact ⟨[], (List.append_nil _).symm, rfl, fun idx hidx => absurd hidx (by simp)⟩
  | cons cid rest ih =>
    intro db k
    simp only [genInvoicesLoop]
    by_cases hg : existsInvoiceAll db.invoices tenant cid
        ((parcels.filter fun s => decide (s.client_id = some cid)).map fun s => s.id) = true
    · rw [if_pos hg]
      exact ih db k
    · rw [if_neg hg]
      obtain ⟨L, hL, hn, hnum⟩ := ih
        { db with invoices := db.invoices ++
            [mkTripInvoice tenant tripId year now user newInvId parcels cid db k] } (k + 1)
      refine ⟨mkTripInvoice tenant tripId year now user newInvId parcels cid db k :: L,
        ?_, ?_, ?_⟩
      · show (genInvoicesLoop tenant tripId year now user newInvId parcels rest
          { db with invoices := db.invoices ++
              [mkTripInvoice tenant tripId year now user newInvId parcels cid db k] }
          (k + 1)).1.invoices = _
        rw [hL]
        show (db.invoices ++ [_]) ++ L = _
        rw [List.append_assoc]
        rfl
      · show (genInvoicesLoop tenant tripId year now user newInvId parcels rest
          { db with invoices := db.invoices ++
              [mkTripInvoice tenant tripId year now user newInvId parcels cid db k] }
          (k + 1)).2 + 1 = _
        rw [hn]
        rfl
      · intro idx hidx
        cases idx with
        | zero =>
          constructor
          · show (mkTripInvoice tenant tripId year now user newInvId parcels cid db k).invoice_number = _
            simp [mkTripInvoice]
          · rfl
        | succ m =>
          have hm : m < L.length := by
            simpa using Nat.lt_of_succ_lt_succ hidx
          obtain ⟨ha, hb⟩ := hnum m hm
          refine ⟨?_, hb⟩
          show (L.get ⟨m, hm⟩).invoice_number = _
          rw [ha]
          have hcount : (({ db with invoices := db.invoices ++
              [mkTripInvoice tenant tripId year now user newInvId parcels cid db k] } :
                DB).invoices.countP fun j => decide (j.tenant_id = tenant)) + m + 1 =
              ((db.invoices.countP fun j => decide (j.tenant_id = tenant)) + (m + 1) + 1) := by
            show ((db.invoices ++
                [mkTripInvoice tenant tripId year now user newInvId parcels cid db k]).countP
                  fun j => decide (j.tenant_id = tenant)) + m + 1 = _
            rw [List.countP_append]
            have : ([mkTripInvoice tenant tripId year now user newInvId parcels cid db k].countP
                fun j => decide (j.tenant_id = tenant)) = 1 := by
              simp [mkTripInvoice]
            rw [this]
            omega
          rw [hcount]

/-- C8 (amended): every invoice number produced by generating invoices for
a trip is `INV-{year}-{N zero-padded to 4}` where `N` is the tenant's
total invoice count across all years at the moment that invoice is
created, plus one (so the `i`-th invoice of the batch gets the initial
all-time count plus `i` plus one) — not the tenant's invoice count for the
current year. -/
theorem invoice_number_sequence (db : DB) (tenant tripId : Nat) (user : User)
    (year now : Nat) (newInvId : Nat → Nat) (db1 : DB) (n : Nat)
    (h : generate_trip_invoices db tenant tripId user year now newInvId = .ok (db1, n)) :
    ∃ L, db1.invoices = db.invoices ++ L ∧ L.length = n ∧
      ∀ idx, (hidx : idx < L.length) →
        (L.get ⟨idx, hidx⟩).invoice_number =
          "INV-" ++ toString year ++ "-" ++
            padNum 4 ((db.invoices.countP fun j => decide (j.tenant_id = tenant)) + idx + 1) := by
  rcases hf : db.trips.find? (fun t => decide (t.id = tripId ∧ t.tenant_id = tenant))
    with _ | trip
  · simp only [generate_trip_invoices, hf] at h
    exact Except.noConfusion h
  · simp only [generate_trip_invoices, hf] at h
    rw [Except.ok.injEq] at h
    have hdb1 := congrArg Prod.fst h
    have hn := congrArg Prod.snd h
    dsimp only at hdb1 hn
    obtain ⟨L, hL, hlen, hnum⟩ := genInvoicesLoop_numbering tenant tripId year now user newInvId
      (db.shipments.filter fun s => decide (s.trip_id = some tripId ∧ s.tenant_id = tenant))
      (dedupFirst ((db.shipments.filter fun s =>
        decide (s.trip_id = some tripId ∧ s.tenant_id = tenant)).filterMap fun s => s.client_id))
      db 0
    refine ⟨L, ?_, ?_, fun idx hidx => (hnum idx hidx).1⟩
    · rw [← hdb1, hL]
    · rw [← hn, hlen]

/-- C8 (counterexample to the claim as stated): the tenant of
`dbPrevYear` has one all-time invoice (numbered in 2024) and zero
invoices of the current year 2025, whether counted by issue year or by
invoice-number prefix; generating invoices for the trip in 2025 produces
"INV-2025-0002", not the "INV-2025-0001" the claim's current-year count
predicts. -/
theorem invoice_number_sequence_cex :
    (∃ db1, generate_trip_invoices dbPrevYear 1 1 owner1 2025 90 (fun k => 200 + k) =
        .ok (db1, 1) ∧
      db1.invoices.map Invoice.invoice_number = ["INV-2024-0001", "INV-2025-0002"]) ∧
    (dbPrevYear.invoices.countP fun j => decide (j.tenant_id = 1 ∧ j.issue_year = 2025)) = 0 ∧
    (dbPrevYear.invoices.countP fun j =>
      decide (j.tenant_id = 1 ∧ j.invoice_number.take 9 = "INV-2025-")) = 0 ∧
    "INV-2025-0002" ≠ "INV-" ++ toString 2025 ++ "-" ++ padNum 4 (0 + 1) := by
  exact ⟨⟨_, rfl, rfl⟩, rfl, rfl, by decide⟩

/-- Witness for `invoice_number_sequence` at the previous-year store. -/
theorem invoice_number_sequence_witness :
    ∃ L, genOnce.invoices = dbPrevYear.invoices ++ L ∧ L.length = 1 ∧
      ∀ idx, (hidx : idx < L.length) →
        (L.get ⟨idx, hidx⟩).invoice_number =
          "INV-" ++ toString 2025 ++ "-" ++
            padNum 4 ((dbPrevYear.invoices.countP fun j => decide (j.tenant_id = 1)) + idx + 1) :=
  invoice_number_sequence dbPrevYear 1 1 owner1 2025 90 (fun k => 200 + k) genOnce 1 rfl

/-! ## C7: assign-then-unassign barcode round trip -/

theorem assign_shipment_ok (db : DB) (tenant tripId shipId : Nat) (trip : Trip) (s0 : Shipment)
    (rand : Nat → Fin 6 → Fin 10)
    (hfindT : db.trips.find? (fun t => decide (t.id = tripId ∧ t.tenant_id = tenant)) = some trip)
    (hunlock : trip.locked_at = none)
    (hfindS : db.shipments.find? (fun s => decide (s.id = shipId ∧ s.tenant_id = tenant))
      = some s0) :
    assign_shipment_to_trip db tenant tripId shipId rand = .ok { db with
      shipments := updateFirst (fun s => decide (s.id = shipId ∧ s.tenant_id = tenant))
        (fun s => { s with trip_id := some tripId, status := .staged }) db.shipments
      pieces := setBarcodesLoop (fun idx p => generate_barcode (some trip.trip_number)
          ((updateFirst (fun s => decide (s.id = shipId ∧ s.tenant_id = tenant))
            (fun s => { s with trip_id := some tripId, status := .staged }) db.shipments).countP
            fun s => decide (s.tenant_id = tenant ∧ s.trip_id = some tripId))
          p.piece_number (rand idx))
        (db.pieces.filter fun p => decide (p.shipment_id = shipId)) 0 db.pieces } := by
  simp only [assign_shipment_to_trip, hfindT]
  rw [hunlock, if_neg (by simp), hfindS, if_neg (by simp)]

theorem unassign_shipment_ok (db : DB) (tenant tripId shipId : Nat) (trip : Trip) (s1 : Shipment)
    (rand : Nat → Fin 6 → Fin 10)
    (hfindT : db.trips.find? (fun t => decide (t.id = tripId ∧ t.tenant_id = tenant)) = some trip)
    (hunlock : trip.locked_at = none)
    (hfindS : db.shipments.find? (fun s =>
      decide (s.id = shipId ∧ s.tenant_id = tenant ∧ s.trip_id = some tripId)) = some s1) :
    unassign_shipment_from_trip db tenant tripId shipId rand = .ok { db with
      shipments := updateFirst (fun s =>
          decide (s.id = shipId ∧ s.tenant_id = tenant ∧ s.trip_id = some tripId))
        (fun s => { s with trip_id := none, status := .warehouse }) db.shipments
      pieces := setBarcodesLoop (fun idx p => generate_barcode none 0 p.piece_number (rand idx))
        (db.pieces.filter fun p => decide (p.shipment_id = shipId)) 0 db.pieces } := by
  simp only [unassign_shipment_from_trip, hfindT]
  rw [hunlock, if_neg (by simp), hfindS, if_neg (by simp)]

theorem remove_parcel_ok (db : DB) (tenant tripId parcelId : Nat) (trip : Trip) (s1 : Shipment)
    (user : User) (randHex : Nat → Fin 8 → Fin 16)
    (hfindT : db.trips.find? (fun t => decide (t.id = tripId ∧ t.tenant_id = tenant)) = some trip)
    (hunlock : trip.locked_at = none)
    (hfindS : db.shipments.find? (fun s =>
      decide (s.id = parcelId ∧ s.trip_id = some tripId)) = some s1) :
    remove_parcel_from_trip db tenant tripId parcelId user randHex = .ok { db with
      shipments := updateFirst (fun s => decide (s.id = parcelId))
        (fun s => { s with trip_id := none, status := .warehouse }) db.shipments
      pieces := setBarcodesLoop (fun idx _ =>
          "TEMP-" ++ String.mk ((List.finRange 8).map fun i => hexCharUpper (randHex idx i)))
        (db.pieces.filter fun p => decide (p.shipment_id = parcelId)) 0 db.pieces } := by
  simp only [remove_parcel_from_trip, hfindT]
  rw [hunlock, if_neg (by simp), hfindS, if_neg (by simp)]

/-- C7 (amended): assigning a shipment to an unlocked trip and then
immediately unassigning it leaves the shipment with `trip_id` null and
status `warehouse` on both unassignment endpoints; the
`unassign-shipment` endpoint regenerates every piece barcode to `TEMP-`
plus exactly 6 random decimal digits, while the `remove-parcel` endpoint
regenerates them to `TEMP-` plus exactly 8 uppercase hexadecimal
characters of a fresh uuid (so the spec's 6-decimal-digit TEMP form holds
only for the former endpoint). -/
theorem assign_unassign_barcodes (db : DB) (tenant tripId shipId : Nat) (trip : Trip)
    (s0 : Shipment) (user : User) (randA randU : Nat → Fin 6 → Fin 10)
    (randH : Nat → Fin 8 → Fin 16)
    (hndS : (db.shipments.map Shipment.id).Nodup)
    (hndP : (db.pieces.map Piece.id).Nodup)
    (hfindT : db.trips.find? (fun t => decide (t.id = tripId ∧ t.tenant_id = tenant)) = some trip)
    (hunlock : trip.locked_at = none)
    (hs0 : s0 ∈ db.shipments) (hsid : s0.id = shipId) (hsten : s0.tenant_id = tenant) :
    (∃ dbA dbB, assign_shipment_to_trip db tenant tripId shipId randA = .ok dbA ∧
      unassign_shipment_from_trip dbA tenant tripId shipId randU = .ok dbB ∧
      (∀ s ∈ dbB.shipments, s.id = shipId →
        s.trip_id = none ∧ s.status = ShipmentStatus.warehouse) ∧
      (∀ q ∈ dbB.pieces, q.shipment_id = shipId → isTemp6 q.barcode = true)) ∧
    (∃ dbA dbC, assign_shipment_to_trip db tenant tripId shipId randA = .ok dbA ∧
      remove_parcel_from_trip dbA tenant tripId shipId user randH = .ok dbC ∧
      (∀ s ∈ dbC.shipments, s.id = shipId →
        s.trip_id = none ∧ s.status = ShipmentStatus.warehouse) ∧
      (∀ q ∈ dbC.pieces, q.shipment_id = shipId → isTempHex8 q.barcode = true)) := by
  have hfindS : db.shipments.find? (fun s => decide (s.id = shipId ∧ s.tenant_id = tenant))
      = some s0 :=
    find?_of_unique_key Shipment.id shipId _ (fun y h => (of_decide_eq_true h).1)
      db.shipments hndS s0 hs0 hsid (decide_eq_true ⟨hsid, hsten⟩)
  have heqA := assign_shipment_ok db tenant tripId shipId trip s0 randA hfindT hunlock hfindS
  -- the intermediate store
  set dbA : DB := { db with
    shipments := updateFirst (fun s => decide (s.id = shipId ∧ s.tenant_id = tenant))
      (fun s => { s with trip_id := some tripId, status := .staged }) db.shipments
    pieces := setBarcodesLoop (fun idx p => generate_barcode (some trip.trip_number)
        ((updateFirst (fun s => decide (s.id = shipId ∧ s.tenant_id = tenant))
          (fun s => { s with trip_id := some tripId, status := .staged }) db.shipments).countP
          fun s => decide (s.tenant_id = tenant ∧ s.trip_id = some tripId))
        p.piece_number (randA idx))
      (db.pieces.filter fun p => decide (p.shipment_id = shipId)) 0 db.pieces } with hdbA
  have hndSA : (dbA.shipments.map Shipment.id).Nodup := by
    rw [hdbA]
    show ((updateFirst (fun s => decide (s.id = shipId ∧ s.tenant_id = tenant))
      (fun s => { s with trip_id := some tripId, status := .staged }) db.shipments).map
        Shipment.id).Nodup
    rw [map_key_updateFirst Shipment.id
      (fun s => decide (s.id = shipId ∧ s.tenant_id = tenant))
      (fun s => { s with trip_id := some tripId, status := .staged }) (fun x => rfl)]
    exact hndS
  have hndPA : (dbA.pieces.map Piece.id).Nodup := by
    rw [hdbA]
    show ((setBarcodesLoop _ _ 0 db.pieces).map Piece.id).Nodup
    rw [setBarcodesLoop_map_id]
    exact hndP
  have hs1mem : ({ s0 with trip_id := some tripId, status := .staged } : Shipment)
      ∈ dbA.shipments := find?_mem_updateFirst hfindS
  have hfindT2 : dbA.trips.find? (fun t => decide (t.id = tripId ∧ t.tenant_id = tenant))
      = some trip := hfindT
  constructor
  · -- unassign-shipment chain
    have hfindS' : dbA.shipments.find? (fun s =>
        decide (s.id = shipId ∧ s.tenant_id = tenant ∧ s.trip_id = some tripId))
        = some { s0 with trip_id := some tripId, status := .staged } :=
      find?_of_unique_key Shipment.id shipId _ (fun y h => (of_decide_eq_true h).1)
        dbA.shipments hndSA _ hs1mem hsid (decide_eq_true ⟨hsid, hsten, rfl⟩)
    have heqB := unassign_shipment_ok dbA tenant tripId shipId trip _ randU hfindT2
      hunlock hfindS'
    refine ⟨dbA, _, heqA, heqB, ?_, ?_⟩
    · intro s hs hid
      have := all_key_updateFirst Shipment.id shipId
        (fun s => decide (s.id = shipId ∧ s.tenant_id = tenant ∧ s.trip_id = some tripId))
        (fun s => { s with trip_id := none, status := .warehouse }) dbA.shipments hndSA
        _ hfindS' hsid s hs hid
      rw [this]
      exact ⟨rfl, rfl⟩
    · intro q hq hqid
      rcases setBarcodesLoop_spec _ _ 0 dbA.pieces hndPA q hq with ⟨hmem, hnot⟩ | ⟨i, t, hbar⟩
      · exact absurd rfl (hnot q (List.mem_filter.mpr ⟨hmem, decide_eq_true hqid⟩))
      · rw [hbar]
        exact isTemp6_generate t.piece_number (randU i)
  · -- remove-parcel chain
    have hfindR : dbA.shipments.find? (fun s =>
        decide (s.id = shipId ∧ s.trip_id = some tripId))
        = some { s0 with trip_id := some tripId, status := .staged } :=
      find?_of_unique_key Shipment.id shipId _ (fun y h => (of_decide_eq_true h).1)
        dbA.shipments hndSA _ hs1mem hsid (decide_eq_true ⟨hsid, rfl⟩)
    have hfindR2 : dbA.shipments.find? (fun s => decide (s.id = shipId))
        = some { s0 with trip_id := some tripId, status := .staged } :=
      find?_of_unique_key Shipment.id shipId _ (fun y h => of_decide_eq_true h)
        dbA.shipments hndSA _ hs1mem hsid (decide_eq_true hsid)
    have heqC := remove_parcel_ok dbA tenant tripId shipId trip _ user randH hfindT2
      hunlock hfindR
    refine ⟨dbA, _, heqA, heqC, ?_, ?_⟩
    · intro s hs hid
      have := all_key_updateFirst Shipment.id shipId
        (fun s => decide (s.id = shipId))
        (fun s => { s with trip_id := none, status := .warehouse }) dbA.shipments hndSA
        _ hfindR2 hsid s hs hid
      rw [this]
      exact ⟨rfl, rfl⟩
    · intro q hq hqid
      rcases setBarcodesLoop_spec _ _ 0 dbA.pieces hndPA q hq with ⟨hmem, hnot⟩ | ⟨i, t, hbar⟩
      · exact absurd rfl (hnot q (List.mem_filter.mpr ⟨hmem, decide_eq_true hqid⟩))
      · rw [hbar]
        exact isTempHex8_generate (randH i)

/-- C7 (counterexample to the claim as stated): assigning the shipment and
removing it through the `remove-parcel` endpoint leaves its piece with
barcode `TEMP-00000000` — `TEMP-` plus 8 hex characters, which does not
match the claimed `TEMP-` plus exactly 6 decimal digits. -/
theorem assign_unassign_barcodes_cex :
    ∃ dbA dbC, assign_shipment_to_trip dbOpen 1 1 10 (fun _ _ => 0) = .ok dbA ∧
      remove_parcel_from_trip dbA 1 1 10 manager1 (fun _ _ => 0) = .ok dbC ∧
      dbC.shipments.map Shipment.trip_id = [none] ∧
      dbC.pieces.map Piece.barcode = ["TEMP-00000000"] ∧
      isTemp6 "TEMP-00000000" = false := by
  exact ⟨_, _, rfl, rfl, rfl, rfl, by decide⟩

/-- Witness for `assign_unassign_barcodes` at the concrete open store. -/
theorem assign_unassign_barcodes_witness :
    (∃ dbA dbB, assign_shipment_to_trip dbOpen 1 1 10 (fun _ _ => 3) = .ok dbA ∧
      unassign_shipment_from_trip dbA 1 1 10 (fun _ _ => 7) = .ok dbB ∧
      (∀ s ∈ dbB.shipments, s.id = 10 →
        s.trip_id = none ∧ s.status = ShipmentStatus.warehouse) ∧
      (∀ q ∈ dbB.pieces, q.shipment_id = 10 → isTemp6 q.barcode = true)) ∧
    (∃ dbA dbC, assign_shipment_to_trip dbOpen 1 1 10 (fun _ _ => 3) = .ok dbA ∧
      remove_parcel_from_trip dbA 1 1 10 manager1 (fun _ _ => 5) = .ok dbC ∧
      (∀ s ∈ dbC.shipments, s.id = 10 →
        s.trip_id = none ∧ s.status = ShipmentStatus.warehouse) ∧
      (∀ q ∈ dbC.pieces, q.shipment_id = 10 → isTempHex8 q.barcode = true)) :=
  assign_unassign_barcodes dbOpen 1 1 10 trip1 ship1 manager1 (fun _ _ => 3) (fun _ _ => 7)
    (fun _ _ => 5) (by decide) (by decide) rfl rfl (by decide) rfl rfl

end Servex
